import Mathlib

/-!
# Verification of the stablecoin-payments financial core

Shallow embedding of the ledger engine (`apps/api/src/domain/ledger/ledger.ts`),
the idempotency store (`apps/api/src/domain/idempotency/idempotency.ts`),
the payout state machine (`domain/payouts`, PayoutStateMachine) and the payout
orchestrator (`apps/api/src/services/payoutService.ts`).

Modelling conventions:
* Monetary amounts are exact rationals (`ℚ`), mirroring `decimal.js` exact
  decimal arithmetic.  String formatting of balances is not modelled.
* The Prisma store is explicit state: lists of records plus a fresh-id counter.
  `findUnique` on a unique column is `List.find?`; `update ... where id` maps
  over the list.  A `$transaction` block is a single pure step (all-or-nothing).
* Fallible operations return `Except AppErr`, with one error variant per
  distinct error class / Prisma error code thrown by the source.
* Request bodies are a JSON value type; SHA-256 of a serialized string is
  modelled by the serialized (replacer-filtered) JSON value itself, so hash
  equality is equality of what `JSON.stringify(body, keys)` would emit.
-/

set_option maxRecDepth 100000

deriving instance DecidableEq for Except

/-- Error taxonomy of `apps/api/src/errors/index.ts` plus the two Prisma
errors surfaced by the domain code (`P2002` unique violation, `P2025`
update-target missing) and the bare `Error` thrown by `getBalance` on an
integrity violation. -/
inductive AppErr
  | validation (msg : String)
  | insufficientFunds (available requested : ℚ)
  | idempotencyConflict (msg : String)
  | notFound (resource id : String)
  | provider (msg : String)
  | integrity (msg : String)
  | uniqueViolation
  deriving DecidableEq, Repr

/-! ## JSON values and `JSON.stringify` with an array replacer -/

/-- JSON value, as handled by `JSON.stringify` in `hashRequestBody`. -/
inductive Json
  | null
  | bool (b : Bool)
  | num (n : Int)
  | str (s : String)
  | arr (elems : List Json)
  | obj (fields : List (String × Json))
  deriving Repr

mutual

/-- Structural equality of JSON values (models string equality of their
serializations / SHA-256 digests). -/
def Json.beq : Json → Json → Bool
  | .null, .null => true
  | .bool a, .bool b => a == b
  | .num a, .num b => a == b
  | .str a, .str b => a == b
  | .arr a, .arr b => Json.beqList a b
  | .obj a, .obj b => Json.beqFields a b
  | _, _ => false

/-- `Json.beq` on element lists. -/
def Json.beqList : List Json → List Json → Bool
  | [], [] => true
  | a :: as, b :: bs => Json.beq a b && Json.beqList as bs
  | _, _ => false

/-- `Json.beq` on field lists. -/
def Json.beqFields : List (String × Json) → List (String × Json) → Bool
  | [], [] => true
  | (k1, v1) :: as, (k2, v2) :: bs =>
    k1 == k2 && Json.beq v1 v2 && Json.beqFields as bs
  | _, _ => false

end

instance : BEq Json := ⟨Json.beq⟩

/-- Own enumerable keys of a value, as `Object.keys` returns them
(top-level only; array indices for arrays, nothing for primitives). -/
def topKeys : Json → List String
  | .obj fs => fs.map (·.1)
  | .arr es => (List.range es.length).map toString
  | _ => []

/-- Lexicographic comparison of char code sequences: the default
`Array.prototype.sort` comparator on strings (UTF-16 code-unit order). -/
def charsLt : List Char → List Char → Bool
  | [], [] => false
  | [], _ :: _ => true
  | _ :: _, [] => false
  | a :: as, b :: bs =>
    if a.toNat < b.toNat then true
    else if b.toNat < a.toNat then false
    else charsLt as bs

/-- `strLt a b`: `a` sorts strictly before `b` under the default JS sort. -/
def strLt (a b : String) : Bool := charsLt a.data b.data

/-- Insert into a `strLt`-sorted list of strings. -/
def insertSorted (s : String) : List String → List String
  | [] => [s]
  | t :: ts => if strLt t s then t :: insertSorted s ts else s :: t :: ts

/-- Sort a list of strings (models `Object.keys(body).sort()`). -/
def sortKeys (l : List String) : List String := l.foldr insertSorted []

/-- Keep, in replacer order, exactly the object fields whose key occurs in
the replacer property list (ECMA-262 `SerializeJSONObject` with a
`PropertyList`). -/
def selectKeys (plist : List String) (fs : List (String × Json)) :
    List (String × Json) :=
  plist.filterMap fun k => (fs.find? (fun kv => kv.1 == k)).map fun kv => (k, kv.2)

mutual

/-- The information `JSON.stringify(v, plist)` serializes: at every object,
only fields whose key is in `plist` survive (this applies at *all* nesting
depths, which is exactly the behaviour of an array replacer); array elements
always survive. -/
def filterJson (plist : List String) : Json → Json
  | .null => .null
  | .bool b => .bool b
  | .num n => .num n
  | .str s => .str s
  | .arr es => .arr (filterJsonList plist es)
  | .obj fs => .obj (selectKeys plist (filterJsonFields plist fs))

/-- `filterJson` mapped over array elements. -/
def filterJsonList (plist : List String) : List Json → List Json
  | [] => []
  | e :: es => filterJson plist e :: filterJsonList plist es

/-- `filterJson` mapped over the values of object fields. -/
def filterJsonFields (plist : List String) :
    List (String × Json) → List (String × Json)
  | [] => []
  | (k, v) :: fs => (k, filterJson plist v) :: filterJsonFields plist fs

end

/-- `IdempotencyService.hashRequestBody`: SHA-256 of
`JSON.stringify(body, Object.keys(body).sort())`.  The hash is modelled by
the replacer-filtered JSON value: two bodies get the same hash exactly when
the filtered serializations coincide. -/
def hashRequestBody (body : Json) : Json :=
  filterJson (sortKeys (topKeys body)) body

/-! ## Ledger engine (`domain/ledger/ledger.ts`) -/

/-- `EntryType` from `domain/ledger/types.ts`. -/
inductive EntryType
  | CREDIT | DEBIT | LOCK | RELEASE | SETTLE
  deriving DecidableEq, Repr

/-- `EntryStatus` from `domain/ledger/types.ts`. -/
inductive EntryStatus
  | PENDING | SETTLED | CANCELLED
  deriving DecidableEq, Repr

/-- A row of the `ledgerEntry` table (fields used by the domain logic). -/
structure LedgerEntry where
  id : Nat
  walletId : String
  currency : String
  entryType : EntryType
  amount : ℚ
  status : EntryStatus
  idempotencyKey : Option String := none
  relatedEntryId : Option Nat := none
  deriving DecidableEq, Repr

/-- The `ledgerEntry` table: append-only rows plus a fresh-id counter. -/
structure LedgerDB where
  entries : List LedgerEntry := []
  nextId : Nat := 0
  deriving DecidableEq, Repr

/-- `findUnique({where: {idempotencyKey}})` (the column is unique). -/
def findEntryByKey (db : LedgerDB) (k : String) : Option LedgerEntry :=
  db.entries.find? (fun e => e.idempotencyKey == some k)

/-- `findUnique({where: {id}})`. -/
def findEntryById (db : LedgerDB) (i : Nat) : Option LedgerEntry :=
  db.entries.find? (fun e => e.id == i)

/-- `ledgerEntry.create`: append a row with a fresh id. -/
def appendEntry (db : LedgerDB) (mk : Nat → LedgerEntry) :
    LedgerEntry × LedgerDB :=
  (mk db.nextId, ⟨db.entries ++ [mk db.nextId], db.nextId + 1⟩)

/-- The computed balance returned by `getBalance`. -/
structure Balance where
  available : ℚ
  locked : ℚ
  total : ℚ
  deriving DecidableEq, Repr

/-- One step of the balance fold in `getBalance` (the `switch` over
`entry.entryType`); the accumulator is `(available, locked)`. -/
def balanceStep (acc : ℚ × ℚ) (e : LedgerEntry) : ℚ × ℚ :=
  match e.entryType with
  | .CREDIT => (acc.1 + e.amount, acc.2)
  | .DEBIT => (acc.1 - e.amount, acc.2)
  | .LOCK => (acc.1 - e.amount, acc.2 + e.amount)
  | .RELEASE => (acc.1 + e.amount, acc.2 - e.amount)
  | .SETTLE => acc

/-- `Ledger.getBalance`: fold all rows of this wallet and currency whose
status is `SETTLED`; negative available or locked is a fatal integrity
error. -/
def getBalance (db : LedgerDB) (walletId currency : String) :
    Except AppErr Balance :=
  let entries := db.entries.filter fun e =>
    e.walletId == walletId && e.currency == currency && e.status == .SETTLED
  let acc := entries.foldl balanceStep (0, 0)
  if acc.1 < 0 then
    .error (.integrity "negative available balance")
  else if acc.2 < 0 then
    .error (.integrity "negative locked balance")
  else
    .ok ⟨acc.1, acc.2, acc.1 + acc.2⟩

/-- `decimal.decimalPlaces() <= 18`: the amount times `10^18` is an
integer. -/
def decimalPlacesLe18 (a : ℚ) : Bool := (a * (10 : ℚ) ^ 18).den == 1

/-- `Ledger.validateAmount`. -/
def validateAmount (a : ℚ) : Except AppErr Unit :=
  if a ≤ 0 then .error (.validation "Amount must be greater than zero")
  else if ¬ decimalPlacesLe18 a then
    .error (.validation "Amount cannot have more than 18 decimal places")
  else .ok ()

/-- `CreditParams` (fields relevant to the domain logic). -/
structure CreditParams where
  walletId : String
  currency : String
  amount : ℚ
  idempotencyKey : Option String := none
  deriving DecidableEq, Repr

/-- `DebitParams`. -/
structure DebitParams where
  walletId : String
  currency : String
  amount : ℚ
  idempotencyKey : Option String := none
  deriving DecidableEq, Repr

/-- `LockFundsParams` (`idempotencyKey` is mandatory). -/
structure LockFundsParams where
  walletId : String
  currency : String
  amount : ℚ
  idempotencyKey : String
  deriving DecidableEq, Repr

/-- `Ledger.credit`: validate the amount, short-circuit on an existing entry
with the supplied idempotency key, otherwise create a `SETTLED` `CREDIT`
row. -/
def credit (db : LedgerDB) (p : CreditParams) :
    Except AppErr (LedgerEntry × LedgerDB) :=
  match validateAmount p.amount with
  | .error e => .error e
  | .ok _ =>
    match p.idempotencyKey with
    | some k =>
      match findEntryByKey db k with
      | some e => .ok (e, db)
      | none =>
        .ok (appendEntry db fun i =>
          { id := i, walletId := p.walletId, currency := p.currency,
            entryType := .CREDIT, amount := p.amount, status := .SETTLED,
            idempotencyKey := p.idempotencyKey })
    | none =>
      .ok (appendEntry db fun i =>
        { id := i, walletId := p.walletId, currency := p.currency,
          entryType := .CREDIT, amount := p.amount, status := .SETTLED,
          idempotencyKey := p.idempotencyKey })

/-- The balance check and row creation of `Ledger.debit` (shared by the
keyed and unkeyed paths). -/
def debitCreate (db : LedgerDB) (p : DebitParams) :
    Except AppErr (LedgerEntry × LedgerDB) :=
  match getBalance db p.walletId p.currency with
  | .error e => .error e
  | .ok bal =>
    if bal.available < p.amount then
      .error (.insufficientFunds bal.available p.amount)
    else
      .ok (appendEntry db fun i =>
        { id := i, walletId := p.walletId, currency := p.currency,
          entryType := .DEBIT, amount := p.amount, status := .SETTLED,
          idempotencyKey := p.idempotencyKey })

/-- `Ledger.debit`: validate, idempotency short-circuit, balance check
(`InsufficientFunds` if available < amount), then create a `SETTLED`
`DEBIT` row. -/
def debit (db : LedgerDB) (p : DebitParams) :
    Except AppErr (LedgerEntry × LedgerDB) :=
  match validateAmount p.amount with
  | .error e => .error e
  | .ok _ =>
    match p.idempotencyKey with
    | some k =>
      match findEntryByKey db k with
      | some e => .ok (e, db)
      | none => debitCreate db p
    | none => debitCreate db p

/-- `Ledger.lockFunds`: validate; replay an existing `PENDING` `LOCK` under
the same key; a resolved entry under the key is an `IdempotencyKeyError`;
otherwise balance check then create a `PENDING` `LOCK` row. -/
def lockFunds (db : LedgerDB) (p : LockFundsParams) :
    Except AppErr (LedgerEntry × LedgerDB) :=
  match validateAmount p.amount with
  | .error e => .error e
  | .ok _ =>
    match findEntryByKey db p.idempotencyKey with
    | some existing =>
      if existing.entryType = .LOCK ∧ existing.status = .PENDING then
        .ok (existing, db)
      else
        .error (.idempotencyConflict "Idempotency key already used with different operation")
    | none =>
      match getBalance db p.walletId p.currency with
      | .error e => .error e
      | .ok bal =>
        if bal.available < p.amount then
          .error (.insufficientFunds bal.available p.amount)
        else
          .ok (appendEntry db fun i =>
            { id := i, walletId := p.walletId, currency := p.currency,
              entryType := .LOCK, amount := p.amount, status := .PENDING,
              idempotencyKey := some p.idempotencyKey })

/-- The `SETTLED` resolving entry (RELEASE or SETTLE) created for a lock,
carrying the lock's wallet, currency and amount and referencing it. -/
def mkResolutionEntry (db : LedgerDB) (lock : LedgerEntry)
    (ty : EntryType) : LedgerEntry :=
  { id := db.nextId, walletId := lock.walletId, currency := lock.currency,
    entryType := ty, amount := lock.amount, status := .SETTLED,
    relatedEntryId := some lock.id }

/-- `Ledger.releaseFunds`: the referenced entry must be a `PENDING` `LOCK`;
atomically create a `SETTLED` `RELEASE` row referencing it and mark the lock
`CANCELLED`. -/
def releaseFunds (db : LedgerDB) (lockEntryId : Nat) :
    Except AppErr (LedgerEntry × LedgerDB) :=
  match findEntryById db lockEntryId with
  | none => .error (.validation "Lock entry not found")
  | some lock =>
    if lock.entryType ≠ .LOCK then
      .error (.validation "Entry is not a LOCK entry")
    else if lock.status ≠ .PENDING then
      .error (.validation "Lock entry is already resolved")
    else
      .ok (mkResolutionEntry db lock .RELEASE,
           { entries := (db.entries ++ [mkResolutionEntry db lock .RELEASE]).map
               fun e => if e.id == lock.id then { e with status := .CANCELLED }
                        else e,
             nextId := db.nextId + 1 })

/-- `Ledger.settleFunds`: same precondition; atomically create a `SETTLED`
`SETTLE` row referencing the lock and mark the lock `SETTLED`. -/
def settleFunds (db : LedgerDB) (lockEntryId : Nat) :
    Except AppErr (LedgerEntry × LedgerDB) :=
  match findEntryById db lockEntryId with
  | none => .error (.validation "Lock entry not found")
  | some lock =>
    if lock.entryType ≠ .LOCK then
      .error (.validation "Entry is not a LOCK entry")
    else if lock.status ≠ .PENDING then
      .error (.validation "Lock entry is already resolved")
    else
      .ok (mkResolutionEntry db lock .SETTLE,
           { entries := (db.entries ++ [mkResolutionEntry db lock .SETTLE]).map
               fun e => if e.id == lock.id then { e with status := .SETTLED }
                        else e,
             nextId := db.nextId + 1 })

/-! ## C1-C3: worked ledger scenarios (spec section 8)

The spec's worked example: credit 500.00, `lockFunds` 300.00 with key K1,
then observe balances; release or settle the lock.  The runs below chain the
embedded ledger operations exactly as the spec's scenarios do. -/

/-- Spec scenario: credit 500, lock 300, read the balance. -/
def c1Run : Except AppErr Balance := do
  let (_, db1) ← credit {} ⟨"W", "USDC", 500, some "kc"⟩
  let (_, db2) ← lockFunds db1 ⟨"W", "USDC", 300, "K1"⟩
  getBalance db2 "W" "USDC"

/-- Spec scenario: credit 500, lock 300, release the lock, read the
balance. -/
def c2Run : Except AppErr Balance := do
  let (_, db1) ← credit {} ⟨"W", "USDC", 500, some "kc"⟩
  let (lock, db2) ← lockFunds db1 ⟨"W", "USDC", 300, "K1"⟩
  let (_, db3) ← releaseFunds db2 lock.id
  getBalance db3 "W" "USDC"

/-- Spec scenario: credit 500, lock 300, settle the lock; report the balance
together with the outcome of a second `settleFunds` and of a `releaseFunds`
on the same, already settled, lock entry. -/
def c3Run : Except AppErr (Balance × Except AppErr Unit × Except AppErr Unit) := do
  let (_, db1) ← credit {} ⟨"W", "USDC", 500, some "kc"⟩
  let (lock, db2) ← lockFunds db1 ⟨"W", "USDC", 300, "K1"⟩
  let (_, db3) ← settleFunds db2 lock.id
  let bal ← getBalance db3 "W" "USDC"
  return (bal, (settleFunds db3 lock.id).map (fun _ => ()),
          (releaseFunds db3 lock.id).map (fun _ => ()))

/-- C1.  The claim says that after `credit 500` and a successful
`lockFunds 300` the balance reads available = 200, locked = 300 (the lock's
effect being immediate).  The code disagrees: `lockFunds` stores the LOCK
row with status `PENDING` while `getBalance` folds only `SETTLED` rows, so
the pending lock is invisible and the balance still reads available = 500,
locked = 0. -/
theorem c1_pending_lock_invisible_to_balance :
    c1Run = .ok { available := 500, locked := 0, total := 500 } := by
  with_unfolding_all decide

/-- C2.  The claim says lock-then-release restores available to its
pre-lock value and locked to zero.  The code instead throws a fatal
integrity error from `getBalance`: the release marks the LOCK row
`CANCELLED` (still excluded from the fold) while adding a `SETTLED` RELEASE
row, so the fold computes locked = 0 - 300 < 0. -/
theorem c2_release_breaks_balance :
    c2Run = .error (.integrity "negative locked balance") := by
  with_unfolding_all decide

/-- C3.  The claim says settling the lock leaves available reduced by the
locked amount and locked back at zero, and that a second settle or a release
on the same lock fails.  The code gets available right (200) and rejects the
second settle/release, but reports locked = 300, not 0: settling flips the
LOCK row itself to `SETTLED` (so it now subtracts from available and adds to
locked) while the SETTLE row is a no-op in the fold, so the lock amount
stays in `locked` forever. -/
theorem c3_settle_leaves_funds_locked :
    c3Run = .ok ({ available := 200, locked := 300, total := 500 },
      .error (.validation "Lock entry is already resolved"),
      .error (.validation "Lock entry is already resolved")) := by
  with_unfolding_all decide

/-! ## Idempotency store (`domain/idempotency/idempotency.ts`) -/

/-- `IdempotencyStatus` from `domain/idempotency/types.ts`. -/
inductive IdemStatus
  | PENDING | COMPLETED | FAILED
  deriving DecidableEq, Repr

/-- A row of the `idempotencyKey` table.  `ρ` is the stored response-body
type (the source stores raw JSON; the payout service reads it back as its
own response type). -/
structure IdemRecord (ρ : Type) where
  merchantId : String
  key : String
  requestHash : Json
  requestMethod : String
  requestPath : String
  status : IdemStatus
  statusCode : Nat := 0
  responseBody : Option ρ := none
  deriving Repr

/-- The `idempotencyKey` table, unique on `(merchantId, key)`. -/
abbrev IdemDB (ρ : Type) := List (IdemRecord ρ)

/-- `findUnique({where: {merchantId_key}})`. -/
def findIdemRecord {ρ} (db : IdemDB ρ) (m k : String) : Option (IdemRecord ρ) :=
  List.find? (fun r => r.merchantId == m && r.key == k) db

/-- The stored response handed back on a duplicate request. -/
structure IdemResponse (ρ : Type) where
  statusCode : Nat
  body : Option ρ
  deriving Repr, DecidableEq

/-- `IdempotencyResult` from `domain/idempotency/types.ts`. -/
structure IdemResult (ρ : Type) where
  isDuplicate : Bool
  response : Option (IdemResponse ρ) := none
  deriving Repr, DecidableEq

/-- `IdempotencyService.checkIdempotency`: no record ⇒ new request; hash or
method/path mismatch ⇒ conflict; `PENDING` ⇒ in-progress error; `COMPLETED`
⇒ duplicate with the stored response; `FAILED` ⇒ retry allowed. -/
def checkIdempotency {ρ} (db : IdemDB ρ)
    (merchantId key requestMethod requestPath : String) (requestBody : Json) :
    Except AppErr (IdemResult ρ) :=
  match findIdemRecord db merchantId key with
  | none => .ok { isDuplicate := false }
  | some existing =>
    if ¬ (existing.requestHash == hashRequestBody requestBody) then
      .error (.idempotencyConflict "key already used with different request payload")
    else if existing.requestMethod ≠ requestMethod ∨ existing.requestPath ≠ requestPath then
      .error (.idempotencyConflict "key already used with different endpoint")
    else if existing.status = .PENDING then
      .error (.idempotencyConflict "request already in progress")
    else if existing.status = .COMPLETED then
      .ok { isDuplicate := true,
            response := some ⟨existing.statusCode, existing.responseBody⟩ }
    else
      .ok { isDuplicate := false }

/-- `IdempotencyService.storeIdempotency`: create a `PENDING` record; on the
unique-constraint violation (record already present) re-read and validate --
hash mismatch, `COMPLETED` and `PENDING` each raise an `IdempotencyKeyError`,
and any other status (i.e. `FAILED`) falls through to the catch block's
unconditional `throw error`, re-raising the `P2002` unique violation. -/
def storeIdempotency {ρ} (db : IdemDB ρ)
    (merchantId key requestMethod requestPath : String) (requestBody : Json) :
    Except AppErr (IdemDB ρ) :=
  match findIdemRecord db merchantId key with
  | none =>
    .ok (db ++ [{ merchantId := merchantId, key := key,
                  requestHash := hashRequestBody requestBody,
                  requestMethod := requestMethod, requestPath := requestPath,
                  status := .PENDING }])
  | some existing =>
    if ¬ (existing.requestHash == hashRequestBody requestBody) then
      .error (.idempotencyConflict "key already used with different request payload")
    else if existing.status = .COMPLETED then
      .error (.idempotencyConflict "request already completed")
    else if existing.status = .PENDING then
      .error (.idempotencyConflict "request already in progress")
    else
      .error .uniqueViolation

/-- `IdempotencyService.completeIdempotency`: `update` of the
`(merchantId, key)` record to `COMPLETED` with the response; a missing
update target is a Prisma `P2025` error. -/
def completeIdempotency {ρ} (db : IdemDB ρ) (merchantId key : String)
    (statusCode : Nat) (responseBody : ρ) : Except AppErr (IdemDB ρ) :=
  if (findIdemRecord db merchantId key).isSome then
    .ok (db.map fun r =>
      if r.merchantId == merchantId && r.key == key then
        { r with status := .COMPLETED, statusCode := statusCode,
                 responseBody := some responseBody }
      else r)
  else .error (.notFound "IdempotencyKey" key)

/-- `IdempotencyService.failIdempotency`: `update` of the `(merchantId, key)`
record to `FAILED`. -/
def failIdempotency {ρ} (db : IdemDB ρ) (merchantId key : String) :
    Except AppErr (IdemDB ρ) :=
  if (findIdemRecord db merchantId key).isSome then
    .ok (db.map fun r =>
      if r.merchantId == merchantId && r.key == key then
        { r with status := .FAILED }
      else r)
  else .error (.notFound "IdempotencyKey" key)

/-! ## C5, C6: idempotency-store behaviour -/

/-- A request body used by the C5 scenario. -/
def c5Body : Json := .obj [("walletId", .str "W"), ("amount", .str "100")]

/-- The store after a request with key K was stored and then marked FAILED:
one record for ("M", "K") with the C5 body's hash, method POST, path /p,
status FAILED. -/
def c5Db : IdemDB Unit :=
  [{ merchantId := "M", key := "K", requestHash := hashRequestBody c5Body,
     requestMethod := "POST", requestPath := "/p", status := .FAILED }]

/-- C5, first half (holds): after `failIdempotency`, `checkIdempotency` for
the same key and identical payload reports not-a-duplicate. -/
theorem c5CheckAllowsRetry :
    checkIdempotency c5Db "M" "K" "POST" "/p" c5Body = .ok { isDuplicate := false } := by
  rfl

/-- C5, second half: the claim says `storeIdempotency` then succeeds for
that key.  It does not: `idempotencyKey.create` hits the unique constraint
(the FAILED record still exists), and the catch block's status checks fall
through to the unconditional `throw error`, re-raising the P2002 unique
violation instead of proceeding as a new attempt. -/
theorem c5StoreRejectsRetry :
    storeIdempotency c5Db "M" "K" "POST" "/p" c5Body = .error .uniqueViolation := by
  rfl

/-- First C6 request body: a payout to recipient account 111, the account
number sitting in a nested object. -/
def c6Body1 : Json :=
  .obj [("walletId", .str "W"),
        ("recipient", .obj [("account", .str "111"), ("name", .str "Alice")])]

/-- Second C6 request body: identical except the nested recipient account is
222 (a semantically different request). -/
def c6Body2 : Json :=
  .obj [("walletId", .str "W"),
        ("recipient", .obj [("account", .str "222"), ("name", .str "Bob")])]

/-- The store after the first request completed: one COMPLETED record for
("M", "K") carrying `c6Body1`'s hash and the stored response. -/
def c6Db : IdemDB Unit :=
  [{ merchantId := "M", key := "K", requestHash := hashRequestBody c6Body1,
     requestMethod := "POST", requestPath := "/p", status := .COMPLETED,
     statusCode := 201, responseBody := some () }]

/-- C6.  The claim says the canonical hash distinguishes any two
semantically different bodies, including differences in nested fields, so a
second call with a different body fails with a conflict.  It does not: the
replacer array `Object.keys(body).sort()` contains only top-level keys, and
`JSON.stringify` applies an array replacer at every nesting depth, so nested
fields (here `recipient.account` and `recipient.name`) are dropped from the
serialization.  The two different bodies hash identically, and
`checkIdempotency` on the second body reports a duplicate and replays the
first request's stored response instead of raising a conflict. -/
theorem c6NestedFieldsNotHashed :
    c6Body1 ≠ c6Body2 ∧
    hashRequestBody c6Body1 = hashRequestBody c6Body2 ∧
    checkIdempotency c6Db "M" "K" "POST" "/p" c6Body2 =
      .ok { isDuplicate := true, response := some ⟨201, some ()⟩ } := by
  refine ⟨?_, rfl, rfl⟩
  intro h
  simp [c6Body1, c6Body2] at h

/-! ## Payout state machine (`domain/payouts`, `PayoutStateMachine`) -/

/-- `PayoutStatus` from `domain/payouts/types.ts`. -/
inductive PayoutStatus
  | CREATED | FUNDS_LOCKED | SENT_TO_PROVIDER | COMPLETED | FAILED
  deriving DecidableEq, Repr

/-- One entry of the ordered state-transition history. -/
structure StateTransition where
  fromState : PayoutStatus
  toState : PayoutStatus
  reason : Option String := none
  deriving DecidableEq, Repr

/-- A row of the `payout` table (fields used by the domain logic;
`idempotencyKey` is a unique column). -/
structure Payout where
  id : Nat
  walletId : String
  amount : ℚ
  currency : String
  recipientAccount : String
  recipientName : String
  recipientBankCode : Option String := none
  status : PayoutStatus
  idempotencyKey : String
  lockEntryId : Option Nat := none
  providerPayoutId : Option String := none
  providerStatus : Option String := none
  providerError : Option String := none
  retryCount : Nat := 0
  stateHistory : List StateTransition := []
  deriving DecidableEq, Repr

/-- `PayoutResult`, the payout representation returned by the service (and
stored as the idempotency record's response body). -/
structure PayoutResult where
  id : Nat
  walletId : String
  amount : ℚ
  currency : String
  status : PayoutStatus
  idempotencyKey : String
  lockEntryId : Option Nat := none
  providerPayoutId : Option String := none
  deriving DecidableEq, Repr

/-- A row of the `wallet` table (fields used by `createPayout`). -/
structure Wallet where
  id : String
  merchantId : String
  active : Bool
  deriving DecidableEq, Repr

/-- The whole persistent store seen by the payout service: ledger entries,
idempotency records, payouts and wallets. -/
structure World where
  ledger : LedgerDB
  idem : IdemDB PayoutResult
  payouts : List Payout
  nextPayoutId : Nat
  wallets : List Wallet

/-- `payout.findUnique({where: {id}})`. -/
def findPayout (w : World) (payoutId : Nat) : Option Payout :=
  w.payouts.find? (fun po => po.id == payoutId)

/-- `payout.findUnique({where: {idempotencyKey}})` (unique column). -/
def findPayoutByKey (w : World) (key : String) : Option Payout :=
  w.payouts.find? (fun po => po.idempotencyKey == key)

/-- `payout.update({where: {id}})`. -/
def updatePayout (w : World) (payoutId : Nat) (f : Payout → Payout) : World :=
  { w with payouts := w.payouts.map fun po =>
      if po.id == payoutId then f po else po }

/-- The `validTransitions` table of `PayoutStateMachine`:
CREATED → FUNDS_LOCKED | FAILED; FUNDS_LOCKED → SENT_TO_PROVIDER | FAILED;
SENT_TO_PROVIDER → COMPLETED | FAILED; COMPLETED and FAILED are terminal. -/
def validTransitions : PayoutStatus → List PayoutStatus
  | .CREATED => [.FUNDS_LOCKED, .FAILED]
  | .FUNDS_LOCKED => [.SENT_TO_PROVIDER, .FAILED]
  | .SENT_TO_PROVIDER => [.COMPLETED, .FAILED]
  | .COMPLETED => []
  | .FAILED => []

/-- `PayoutStateMachine.isValidTransition`. -/
def isValidTransition (fromState toState : PayoutStatus) : Bool :=
  (validTransitions fromState).contains toState

/-- `PayoutStateMachine.transitionToFundsLocked`: requires the payout to be
`CREATED` and the referenced ledger entry to be a `PENDING` `LOCK`; records
the lock reference and appends to the history. -/
def transitionToFundsLocked (w : World) (payoutId lockEntryId : Nat) :
    Except AppErr World :=
  match findPayout w payoutId with
  | none => .error (.validation "Payout not found")
  | some po =>
    if po.status ≠ .CREATED then
      .error (.validation "Cannot transition to FUNDS_LOCKED: payout must be in CREATED state")
    else match findEntryById w.ledger lockEntryId with
      | none => .error (.validation "Lock entry not found")
      | some le =>
        if le.entryType ≠ .LOCK ∨ le.status ≠ .PENDING then
          .error (.validation "Lock entry is not a valid pending LOCK entry")
        else
          .ok (updatePayout w payoutId fun _ =>
            { po with status := .FUNDS_LOCKED, lockEntryId := some lockEntryId,
                      stateHistory := po.stateHistory ++
                        [⟨.CREATED, .FUNDS_LOCKED, some "Funds locked in ledger"⟩] })

/-- `PayoutStateMachine.transitionToSentToProvider`: requires
`FUNDS_LOCKED` and an existing lock reference; records the provider payout
id. -/
def transitionToSentToProvider (w : World) (payoutId : Nat)
    (providerPayoutId : String) : Except AppErr World :=
  match findPayout w payoutId with
  | none => .error (.validation "Payout not found")
  | some po =>
    if po.status ≠ .FUNDS_LOCKED then
      .error (.validation "Cannot transition to SENT_TO_PROVIDER: payout must be in FUNDS_LOCKED state")
    else if po.lockEntryId.isNone then
      .error (.validation "Payout must have lockEntryId before sending to provider")
    else
      .ok (updatePayout w payoutId fun _ =>
        { po with status := .SENT_TO_PROVIDER,
                  providerPayoutId := some providerPayoutId,
                  stateHistory := po.stateHistory ++
                    [⟨.FUNDS_LOCKED, .SENT_TO_PROVIDER, some "Sent to provider"⟩] })

/-- `PayoutStateMachine.transitionToCompleted`: requires
`SENT_TO_PROVIDER` and an existing lock reference; records the provider
status. -/
def transitionToCompleted (w : World) (payoutId : Nat)
    (providerStatus : Option String) : Except AppErr World :=
  match findPayout w payoutId with
  | none => .error (.validation "Payout not found")
  | some po =>
    if po.status ≠ .SENT_TO_PROVIDER then
      .error (.validation "Cannot transition to COMPLETED: payout must be in SENT_TO_PROVIDER state")
    else if po.lockEntryId.isNone then
      .error (.validation "Payout must have lockEntryId before completing")
    else
      .ok (updatePayout w payoutId fun _ =>
        { po with status := .COMPLETED,
                  providerStatus := some (providerStatus.getD "completed"),
                  stateHistory := po.stateHistory ++
                    [⟨.SENT_TO_PROVIDER, .COMPLETED, some "Provider confirmed completion"⟩] })

/-- `PayoutStateMachine.transitionToFailed`: rejected from the terminal
states `COMPLETED` and `FAILED`; otherwise records the failure reason and
provider error. -/
def transitionToFailed (w : World) (payoutId : Nat) (reason : String)
    (providerError : Option String) : Except AppErr World :=
  match findPayout w payoutId with
  | none => .error (.validation "Payout not found")
  | some po =>
    if po.status = .COMPLETED ∨ po.status = .FAILED then
      .error (.validation "Cannot transition from terminal state to FAILED")
    else
      .ok (updatePayout w payoutId fun _ =>
        { po with status := .FAILED, providerError := providerError,
                  stateHistory := po.stateHistory ++
                    [⟨po.status, .FAILED, some reason⟩] })

/-- `PayoutStateMachine.getState`. -/
def getState (w : World) (payoutId : Nat) : Option PayoutStatus :=
  (findPayout w payoutId).map (·.status)

/-- `PayoutStateMachine.canTransition`. -/
def canTransition (w : World) (payoutId : Nat) (to_ : PayoutStatus) : Bool :=
  match getState w payoutId with
  | none => false
  | some st => isValidTransition st to_

/-! ## C7: terminal payouts are frozen -/

/-- Generic list fact: mapping `if q x then f x else x` over a list does not
change `find? p` when the touched elements (`q`) never satisfy `p` and `f`
does not make them satisfy `p`. -/
theorem find?_map_ite {α : Type} (p q : α → Bool) (f : α → α) (l : List α)
    (hpres : ∀ x, q x = true → p (f x) = p x)
    (hdisj : ∀ x, p x = true → q x = false) :
    (l.map fun x => if q x then f x else x).find? p = l.find? p := by
  induction l with
  | nil => rfl
  | cons x xs ih =>
    simp only [List.map_cons]
    rcases hq : q x with _ | _
    · rw [if_neg (by simp [hq])]
      rcases hp : p x with _ | _
      · rw [List.find?_cons_of_neg _ (by simp [hp]),
            List.find?_cons_of_neg _ (by simp [hp]), ih]
      · rw [List.find?_cons_of_pos _ hp, List.find?_cons_of_pos _ hp]
    · rw [if_pos (by simp [hq])]
      have hp : p x = false := by
        rcases hpx : p x with _ | _
        · rfl
        · exact absurd (hdisj x hpx) (by simp [hq])
      have hpf : p (f x) = false := by rw [hpres x hq, hp]
      rw [List.find?_cons_of_neg _ (by simp [hpf]),
          List.find?_cons_of_neg _ (by simp [hp]), ih]

/-- Generic list fact: mapping `if p x then f x else x` over a list pushes
`f` under `find? p` when `f` preserves `p`. -/
theorem find?_map_ite_self {α : Type} (p : α → Bool) (f : α → α) (l : List α)
    (hf : ∀ x, p x = true → p (f x) = true) :
    (l.map fun x => if p x then f x else x).find? p = (l.find? p).map f := by
  induction l with
  | nil => rfl
  | cons x xs ih =>
    simp only [List.map_cons]
    rcases hp : p x with _ | _
    · rw [if_neg (by simp [hp]), List.find?_cons_of_neg _ (by simp [hp]),
          List.find?_cons_of_neg _ (by simp [hp]), ih]
    · rw [if_pos (by simp [hp]), List.find?_cons_of_pos _ (hf x hp),
          List.find?_cons_of_pos _ hp]
      rfl

/-- `updatePayout` targeting a different payout id leaves `findPayout`
unchanged, provided the written record keeps the targeted id. -/
theorem findPayout_updatePayout_ne (w : World) (q pid : Nat) (npo : Payout)
    (hne : pid ≠ q) (hnpo : npo.id = q) :
    findPayout (updatePayout w q fun _ => npo) pid = findPayout w pid := by
  unfold findPayout updatePayout
  exact find?_map_ite _ _ _ _
    (fun x hx => by simp_all)
    (fun x hx => by simp_all)

/-- `updatePayout` on the looked-up id rewrites the found record, provided
the written record keeps the id. -/
theorem findPayout_updatePayout_self (w : World) (q : Nat) (npo : Payout)
    (hnpo : npo.id = q) :
    findPayout (updatePayout w q fun _ => npo) q =
      (findPayout w q).map fun _ => npo := by
  unfold findPayout updatePayout
  exact find?_map_ite_self _ _ _ (fun x hx => by simp_all)

/-- One invocation of a state-machine transition operation, as an opaque
request (which operation, on which payout, with which arguments). -/
inductive SMOp
  | toFundsLocked (payoutId lockEntryId : Nat)
  | toSentToProvider (payoutId : Nat) (providerPayoutId : String)
  | toCompleted (payoutId : Nat) (providerStatus : Option String)
  | toFailed (payoutId : Nat) (reason : String) (providerError : Option String)
  deriving DecidableEq, Repr

/-- The payout a state-machine operation addresses. -/
def SMOp.target : SMOp → Nat
  | .toFundsLocked pid _ => pid
  | .toSentToProvider pid _ => pid
  | .toCompleted pid _ => pid
  | .toFailed pid _ _ => pid

/-- Dispatch a state-machine operation. -/
def runSM (w : World) : SMOp → Except AppErr World
  | .toFundsLocked pid lid => transitionToFundsLocked w pid lid
  | .toSentToProvider pid ppid => transitionToSentToProvider w pid ppid
  | .toCompleted pid ps => transitionToCompleted w pid ps
  | .toFailed pid r pe => transitionToFailed w pid r pe

/-- Run one operation; a rejected transition writes nothing (the source
performs the precondition check and the write inside one transaction). -/
def applySM (w : World) (op : SMOp) : World :=
  match runSM w op with
  | .ok w' => w'
  | .error _ => w

/-- Run a sequence of state-machine operations. -/
def runSMSeq (w : World) (ops : List SMOp) : World := ops.foldl applySM w

/-- A found payout carries the id it was looked up by. -/
theorem findPayout_some_id {w : World} {q : Nat} {po : Payout}
    (h : findPayout w q = some po) : po.id = q := by
  have := List.find?_some (p := fun po : Payout => po.id == q)
    (by simpa [findPayout] using h)
  simpa using this

/-- On a payout in a terminal state, every state-machine operation is
rejected. -/
theorem runSM_terminal_rejects (w : World) (pid : Nat) (po : Payout) (op : SMOp)
    (hfind : findPayout w pid = some po)
    (hterm : po.status = .COMPLETED ∨ po.status = .FAILED)
    (htgt : op.target = pid) :
    ∃ e, runSM w op = .error e := by
  have hC : po.status ≠ .CREATED := by rcases hterm with h | h <;> simp [h]
  have hF : po.status ≠ .FUNDS_LOCKED := by rcases hterm with h | h <;> simp [h]
  have hS : po.status ≠ .SENT_TO_PROVIDER := by rcases hterm with h | h <;> simp [h]
  cases op with
  | toFundsLocked q lid =>
    simp only [SMOp.target] at htgt; subst htgt
    simp only [runSM, transitionToFundsLocked, hfind, if_pos hC]
    exact ⟨_, rfl⟩
  | toSentToProvider q ppid =>
    simp only [SMOp.target] at htgt; subst htgt
    simp only [runSM, transitionToSentToProvider, hfind, if_pos hF]
    exact ⟨_, rfl⟩
  | toCompleted q ps =>
    simp only [SMOp.target] at htgt; subst htgt
    simp only [runSM, transitionToCompleted, hfind, if_pos hS]
    exact ⟨_, rfl⟩
  | toFailed q r pe =>
    simp only [SMOp.target] at htgt; subst htgt
    simp only [runSM, transitionToFailed, hfind, if_pos hterm]
    exact ⟨_, rfl⟩

/-- A successful state-machine operation only rewrites the payout it
targets (and keeps that payout's id). -/
theorem runSM_ok_shape (w : World) (op : SMOp) (w' : World)
    (h : runSM w op = .ok w') :
    ∃ npo : Payout, npo.id = op.target ∧
      w' = updatePayout w op.target fun _ => npo := by
  cases op with
  | toFundsLocked q lid =>
    simp only [runSM, transitionToFundsLocked, SMOp.target] at h ⊢
    split at h
    · exact absurd h (by simp)
    · next po' hf =>
      split at h
      · exact absurd h (by simp)
      · split at h
        · exact absurd h (by simp)
        · split at h
          · exact absurd h (by simp)
          · injection h with h'
            refine ⟨_, ?_, h'.symm⟩
            simpa using findPayout_some_id hf
  | toSentToProvider q ppid =>
    simp only [runSM, transitionToSentToProvider, SMOp.target] at h ⊢
    split at h
    · exact absurd h (by simp)
    · next po' hf =>
      split at h
      · exact absurd h (by simp)
      · split at h
        · exact absurd h (by simp)
        · injection h with h'
          refine ⟨_, ?_, h'.symm⟩
          simpa using findPayout_some_id hf
  | toCompleted q ps =>
    simp only [runSM, transitionToCompleted, SMOp.target] at h ⊢
    split at h
    · exact absurd h (by simp)
    · next po' hf =>
      split at h
      · exact absurd h (by simp)
      · split at h
        · exact absurd h (by simp)
        · injection h with h'
          refine ⟨_, ?_, h'.symm⟩
          simpa using findPayout_some_id hf
  | toFailed q r pe =>
    simp only [runSM, transitionToFailed, SMOp.target] at h ⊢
    split at h
    · exact absurd h (by simp)
    · next po' hf =>
      split at h
      · exact absurd h (by simp)
      · injection h with h'
        refine ⟨_, ?_, h'.symm⟩
        simpa using findPayout_some_id hf

/-- One operation never changes a terminal payout. -/
theorem findPayout_applySM (w : World) (pid : Nat) (po : Payout) (op : SMOp)
    (hfind : findPayout w pid = some po)
    (hterm : po.status = .COMPLETED ∨ po.status = .FAILED) :
    findPayout (applySM w op) pid = some po := by
  by_cases htgt : op.target = pid
  · obtain ⟨e, he⟩ := runSM_terminal_rejects w pid po op hfind hterm htgt
    simp [applySM, he, hfind]
  · cases hop : runSM w op with
    | error e => simp [applySM, hop, hfind]
    | ok w' =>
      obtain ⟨npo, hid, rfl⟩ := runSM_ok_shape w op w' hop
      have : findPayout (updatePayout w op.target fun _ => npo) pid =
          findPayout w pid :=
        findPayout_updatePayout_ne w op.target pid npo
          (fun hh => htgt hh.symm) hid
      simp [applySM, hop, this, hfind]

/-- No sequence of operations changes a terminal payout. -/
theorem findPayout_runSMSeq (ops : List SMOp) (w : World) (pid : Nat)
    (po : Payout) (hterm : po.status = .COMPLETED ∨ po.status = .FAILED)
    (hfind : findPayout w pid = some po) :
    findPayout (runSMSeq w ops) pid = some po := by
  revert hfind
  induction ops generalizing w with
  | nil => exact fun hfind => hfind
  | cons op rest ih =>
    intro hfind
    have hstep := findPayout_applySM w pid po op hfind hterm
    simpa [runSMSeq] using ih (applySM w op) hstep

/-- C7.  A payout whose status is COMPLETED or FAILED is frozen: every one
of the four transition operations addressed to it is rejected with an error
(and, rejecting, writes nothing), and no sequence of transition operations
whatsoever changes any field of it -- in particular neither its status nor
its state history. -/
theorem terminalPayoutFrozen (w : World) (pid : Nat) (po : Payout)
    (hfind : findPayout w pid = some po)
    (hterm : po.status = .COMPLETED ∨ po.status = .FAILED) :
    (∀ op : SMOp, op.target = pid → ∃ e, runSM w op = .error e) ∧
    ∀ ops : List SMOp, findPayout (runSMSeq w ops) pid = some po := by
  exact ⟨fun op h => runSM_terminal_rejects w pid po op hfind hterm h,
    fun ops => findPayout_runSMSeq ops w pid po hterm hfind⟩

/-- A concrete COMPLETED payout. -/
def poC7 : Payout :=
  { id := 1, walletId := "W", amount := 50, currency := "USDC",
    recipientAccount := "A", recipientName := "N", status := .COMPLETED,
    idempotencyKey := "K7", lockEntryId := some 0,
    providerPayoutId := some "P",
    stateHistory := [⟨.CREATED, .FUNDS_LOCKED, some "Funds locked in ledger"⟩] }

/-- A concrete store holding only that payout. -/
def wC7 : World :=
  { ledger := {}, idem := [], payouts := [poC7], nextPayoutId := 2,
    wallets := [] }

/-- Witness for C7 at a concrete store: a transition on the COMPLETED
payout is rejected, and a two-operation sequence leaves it untouched. -/
theorem terminalPayoutFrozenWitness :
    (∃ e, runSM wC7 (SMOp.toFailed 1 "late failure" none) = .error e) ∧
    findPayout
      (runSMSeq wC7 [SMOp.toFundsLocked 1 0, SMOp.toFailed 1 "x" none]) 1 =
      some poC7 := by
  have h := terminalPayoutFrozen wC7 1 poC7 rfl (Or.inl rfl)
  exact ⟨h.1 (SMOp.toFailed 1 "late failure" none) rfl, h.2 _⟩

/-! ## Payout orchestrator (`services/payoutService.ts`) -/

/-- `error.message` of the propagated error (used as the recorded failure
reason). -/
def errMessage : AppErr → String
  | .validation m => m
  | .insufficientFunds _ _ => "Insufficient balance"
  | .idempotencyConflict m => m
  | .notFound r i => r ++ " not found: " ++ i
  | .provider m => m
  | .integrity m => m
  | .uniqueViolation => "Unique constraint failed"

/-- Observable events of one `createPayout` run, in order, used to state
ordering properties (which the source enforces by control flow). -/
inductive Event
  | payoutCreated (payoutId : Nat)
  | fundsLocked (lockEntryId : Nat)
  | fundsLockedTransition
  | providerCalled
  | sentToProviderTransition
  deriving DecidableEq, Repr

/-- Result of a whole `createPayout` run: the returned value or error, the
final store, and the ordered event trace. -/
structure RunResult where
  result : Except AppErr PayoutResult
  world : World
  events : List Event

/-- `CreatePayoutParams` from `services/payoutService.ts` (metadata
omitted). -/
structure CreatePayoutParams where
  merchantId : String
  idempotencyKey : String
  walletId : String
  amount : ℚ
  currency : String
  recipientAccount : String
  recipientName : String
  recipientBankCode : Option String := none

/-- The request body `createPayout` hands to the idempotency service (a
JSON object of the payout parameters; an `undefined` bank code is dropped
from the serialization, so it is omitted here). -/
def payoutRequestBody (p : CreatePayoutParams) : Json :=
  .obj ([("walletId", .str p.walletId), ("amount", .str (toString p.amount)),
         ("currency", .str p.currency),
         ("recipientAccount", .str p.recipientAccount),
         ("recipientName", .str p.recipientName)] ++
        (match p.recipientBankCode with
         | some bc => [("recipientBankCode", .str bc)]
         | none => []))

/-- The `{}` JSON body read back as a `PayoutResult` when a completed
record has no stored response (unreachable in practice). -/
def emptyPayoutResult : PayoutResult :=
  { id := 0, walletId := "", amount := 0, currency := "",
    status := .CREATED, idempotencyKey := "" }

/-- The payout representation `createPayout` returns (`mapPayout`). -/
def payoutToResult (po : Payout) : PayoutResult :=
  { id := po.id, walletId := po.walletId, amount := po.amount,
    currency := po.currency, status := po.status,
    idempotencyKey := po.idempotencyKey, lockEntryId := po.lockEntryId,
    providerPayoutId := po.providerPayoutId }

/-- `PayoutService.sendToProvider`: call the off-ramp adapter.  The
adapter's outcome is the `prov` parameter (external collaborator); an
adapter failure is wrapped in a `ProviderError`. -/
def sendToProvider (prov : Except AppErr String) : Except AppErr String :=
  match prov with
  | .ok providerPayoutId => .ok providerPayoutId
  | .error _ => .error (.provider "Failed to create payout")

/-- `PayoutService.failPayout`: look up the payout, transition it to
FAILED, then release the lock recorded on the payout (as read before the
transition) if there is one.  The two writes are separate transactions in
the source, so on an error the partial state is kept: the error is returned
together with the store as mutated so far. -/
def failPayout (w : World) (payoutId : Nat) (reason : String)
    (providerError : Option String) : Except (AppErr × World) World :=
  match findPayout w payoutId with
  | none => .error (.notFound "Payout" (toString payoutId), w)
  | some po =>
    match transitionToFailed w payoutId reason providerError with
    | .error e => .error (e, w)
    | .ok w1 =>
      match po.lockEntryId with
      | none => .ok w1
      | some lid =>
        match releaseFunds w1.ledger lid with
        | .error e => .error (e, w1)
        | .ok (_, ledger2) => .ok { w1 with ledger := ledger2 }

/-- Final part of the `catch` block of `createPayout`: mark the
idempotency record FAILED and re-raise the original error (a failure of
`failIdempotency` itself would replace the original error, mirroring the
un-guarded `await`). -/
def finishCatch (w1 : World) (merchantId key : String) (e : AppErr)
    (events : List Event) : RunResult :=
  match failIdempotency w1.idem merchantId key with
  | .ok idem1 => ⟨.error e, { w1 with idem := idem1 }, events⟩
  | .error e2 => ⟨.error e2, w1, events⟩

/-- Compensation part of the `catch` block of `createPayout`: if a payout
for this idempotency key exists and is not terminal, `failPayout` it (its
own failure is only logged -- and the truthiness check
`if (params.idempotencyKey)` skips all of this for the empty key). -/
def catchCompensate (w : World) (p : CreatePayoutParams) (e : AppErr) : World :=
  if p.idempotencyKey ≠ "" then
    match findPayoutByKey w p.idempotencyKey with
    | some po =>
      if po.status ≠ .COMPLETED ∧ po.status ≠ .FAILED then
        match failPayout w po.id (errMessage e) none with
        | .ok w' => w'
        | .error (_, w') => w'
      else w
    | none => w
  else w

/-- The `catch` block of `createPayout`: compensate, mark the idempotency
record FAILED, re-raise the original error. -/
def catchPayoutFailure (w : World) (p : CreatePayoutParams) (e : AppErr)
    (events : List Event) : RunResult :=
  finishCatch (catchCompensate w p e) p.merchantId p.idempotencyKey e events

/-- Steps 8b-9 of the `createPayout` try block: re-read the payout and
complete the idempotency record with the resulting representation. -/
def createPayoutFinish (w5 : World) (p : CreatePayoutParams) (pid : Nat)
    (evs : List Event) : RunResult :=
  match findPayout w5 pid with
  | none =>
    ⟨.error (.validation "Payout not found after state transition"), w5, evs⟩
  | some updated =>
    match completeIdempotency w5.idem p.merchantId p.idempotencyKey 201
        (payoutToResult updated) with
    | .error e => ⟨.error e, w5, evs⟩
    | .ok idem2 => ⟨.ok (payoutToResult updated), { w5 with idem := idem2 }, evs⟩

/-- Steps 7-8 of the `createPayout` try block: call the off-ramp provider,
then transition to SENT_TO_PROVIDER. -/
def createPayoutSend (w4 : World) (p : CreatePayoutParams) (pid : Nat)
    (prov : Except AppErr String) (ev2 : List Event) : RunResult :=
  match sendToProvider prov with
  | .error e => ⟨.error e, w4, ev2 ++ [Event.providerCalled]⟩
  | .ok providerPayoutId =>
    match transitionToSentToProvider w4 pid providerPayoutId with
    | .error e => ⟨.error e, w4, ev2 ++ [Event.providerCalled]⟩
    | .ok w5 =>
      createPayoutFinish w5 p pid
        (ev2 ++ [Event.providerCalled, Event.sentToProviderTransition])

/-- Steps 5-6 of the `createPayout` try block: lock the funds, then
transition to FUNDS_LOCKED. -/
def createPayoutLock (w2 : World) (p : CreatePayoutParams) (pid : Nat)
    (prov : Except AppErr String) (ev0 : List Event) : RunResult :=
  match lockFunds w2.ledger
      ⟨p.walletId, p.currency, p.amount, p.idempotencyKey⟩ with
  | .error e => ⟨.error e, w2, ev0⟩
  | .ok (lockEntry, ledger2) =>
    match transitionToFundsLocked { w2 with ledger := ledger2 } pid
        lockEntry.id with
    | .error e =>
      ⟨.error e, { w2 with ledger := ledger2 },
       ev0 ++ [Event.fundsLocked lockEntry.id]⟩
    | .ok w4 =>
      createPayoutSend w4 p pid prov
        (ev0 ++ [Event.fundsLocked lockEntry.id, Event.fundsLockedTransition])

/-- The payout record created by step 4 (status CREATED, fresh id, unique
idempotency key). -/
def mkPayout (w : World) (p : CreatePayoutParams) : Payout :=
  { id := w.nextPayoutId, walletId := p.walletId, amount := p.amount,
    currency := p.currency, recipientAccount := p.recipientAccount,
    recipientName := p.recipientName,
    recipientBankCode := p.recipientBankCode, status := .CREATED,
    idempotencyKey := p.idempotencyKey }

/-- The `try` block of `createPayout` (steps 3-9): wallet check, payout
record creation (unique on idempotencyKey), then locking, provider call and
the remaining transitions. -/
def createPayoutTry (w : World) (p : CreatePayoutParams)
    (prov : Except AppErr String) : RunResult :=
  match w.wallets.find? fun wl =>
      wl.id == p.walletId && wl.merchantId == p.merchantId && wl.active with
  | none => ⟨.error (.notFound "Wallet" p.walletId), w, []⟩
  | some _ =>
    if (findPayoutByKey w p.idempotencyKey).isSome then
      ⟨.error .uniqueViolation, w, []⟩
    else
      createPayoutLock
        { w with payouts := w.payouts ++ [mkPayout w p],
                 nextPayoutId := w.nextPayoutId + 1 }
        p w.nextPayoutId prov [Event.payoutCreated w.nextPayoutId]

/-- `PayoutService.createPayout`: idempotency check (short-circuit on a
stored duplicate), idempotency store, then the try block; any error from
the try block runs the catch block (fail the payout, release the lock, fail
the idempotency record, re-raise). -/
def createPayout (w : World) (p : CreatePayoutParams)
    (prov : Except AppErr String) : RunResult :=
  match checkIdempotency w.idem p.merchantId p.idempotencyKey "POST"
      "/api/v1/payouts" (payoutRequestBody p) with
  | .error e => ⟨.error e, w, []⟩
  | .ok chk =>
    match chk.isDuplicate, chk.response with
    | true, some resp => ⟨.ok (resp.body.getD emptyPayoutResult), w, []⟩
    | _, _ =>
      match storeIdempotency w.idem p.merchantId p.idempotencyKey "POST"
          "/api/v1/payouts" (payoutRequestBody p) with
      | .error e => ⟨.error e, w, []⟩
      | .ok idem1 =>
        match (createPayoutTry { w with idem := idem1 } p prov).result with
        | .ok _ => createPayoutTry { w with idem := idem1 } p prov
        | .error e =>
          catchPayoutFailure
            (createPayoutTry { w with idem := idem1 } p prov).world p e
            (createPayoutTry { w with idem := idem1 } p prov).events

/-- The provider call and SENT_TO_PROVIDER transition of `retryPayout`,
shared by the re-lock and existing-lock paths. -/
def retryPayoutSend (w : World) (payoutId : Nat)
    (prov : Except AppErr String) : Except AppErr PayoutResult × World :=
  match sendToProvider prov with
  | .error e => (.error e, w)
  | .ok providerPayoutId =>
    match transitionToSentToProvider w payoutId providerPayoutId with
    | .error e => (.error e, w)
    | .ok w' =>
      match findPayout w' payoutId with
      | none => (.error (.notFound "Payout" (toString payoutId)), w')
      | some updated => (.ok (payoutToResult updated), w')

/-- The `payout.update` bumping the retry count at the start of a retry
(the source also stamps `lastRetryAt`, not modelled). -/
def bumpRetryCount (w : World) (payoutId retries : Nat) : World :=
  updatePayout w payoutId fun q => { q with retryCount := retries + 1 }

/-- The re-lock path of `retryPayout` (no lock reference on the payout):
lock under the derived key `originalKey-retry-n`, transition to
FUNDS_LOCKED, then send. -/
def retryPayoutRelock (w1 : World) (payoutId : Nat) (po : Payout)
    (prov : Except AppErr String) : Except AppErr PayoutResult × World :=
  match lockFunds w1.ledger
      ⟨po.walletId, po.currency, po.amount,
       po.idempotencyKey ++ "-retry-" ++ toString po.retryCount⟩ with
  | .error e => (.error e, w1)
  | .ok (lockEntry, ledger2) =>
    match transitionToFundsLocked { w1 with ledger := ledger2 } payoutId
        lockEntry.id with
    | .error e => (.error e, { w1 with ledger := ledger2 })
    | .ok w3 => retryPayoutSend w3 payoutId prov

/-- `PayoutService.retryPayout`: only a FAILED payout may be retried;
increment the retry count; re-lock under the derived key when no lock
reference exists and transition to FUNDS_LOCKED; call the provider;
transition to SENT_TO_PROVIDER. -/
def retryPayout (w : World) (payoutId : Nat) (prov : Except AppErr String) :
    Except AppErr PayoutResult × World :=
  match findPayout w payoutId with
  | none => (.error (.notFound "Payout" (toString payoutId)), w)
  | some po =>
    if po.status ≠ .FAILED then
      (.error (.validation "Cannot retry payout in this state"), w)
    else
      match po.lockEntryId with
      | none =>
        retryPayoutRelock (bumpRetryCount w payoutId po.retryCount) payoutId
          po prov
      | some _ =>
        retryPayoutSend (bumpRetryCount w payoutId po.retryCount) payoutId prov

/-! ## C9: the provider is only called after the FUNDS_LOCKED transition -/

/-- `true` iff no `providerCalled` event occurs before the first successful
FUNDS_LOCKED transition. -/
def noProviderBeforeLockTransition : List Event → Bool
  | [] => true
  | .providerCalled :: _ => false
  | .fundsLockedTransition :: _ => true
  | _ :: rest => noProviderBeforeLockTransition rest

/-- `true` iff the trace records a successful `lockFunds`. -/
def hasFundsLocked (evs : List Event) : Bool :=
  evs.any fun e => match e with | .fundsLocked _ => true | _ => false

/-- `finishCatch` never touches the event trace. -/
theorem finishCatch_events (w1 : World) (m k : String) (e : AppErr)
    (evs : List Event) : (finishCatch w1 m k e evs).events = evs := by
  unfold finishCatch
  split <;> rfl

/-- The catch block never touches the event trace. -/
theorem catchPayoutFailure_events (w : World) (p : CreatePayoutParams)
    (e : AppErr) (evs : List Event) :
    (catchPayoutFailure w p e evs).events = evs :=
  finishCatch_events _ _ _ _ _

/-- Steps 8b-9 never touch the event trace. -/
theorem createPayoutFinish_events (w5 : World) (p : CreatePayoutParams)
    (pid : Nat) (evs : List Event) :
    (createPayoutFinish w5 p pid evs).events = evs := by
  unfold createPayoutFinish
  split
  · rfl
  · split <;> rfl

/-- Steps 7-8 always call the provider exactly once, first. -/
theorem createPayoutSend_events (w4 : World) (p : CreatePayoutParams)
    (pid : Nat) (prov : Except AppErr String) (ev2 : List Event) :
    ∃ tail, (createPayoutSend w4 p pid prov ev2).events =
      ev2 ++ Event.providerCalled :: tail := by
  unfold createPayoutSend
  split
  · exact ⟨[], rfl⟩
  · split
    · exact ⟨[], rfl⟩
    · exact ⟨[Event.sentToProviderTransition],
        by rw [createPayoutFinish_events]⟩

/-- The traces steps 5 onwards can produce. -/
theorem createPayoutLock_events (w2 : World) (p : CreatePayoutParams)
    (pid : Nat) (prov : Except AppErr String) (ev0 : List Event) :
    (createPayoutLock w2 p pid prov ev0).events = ev0 ∨
    (∃ l, (createPayoutLock w2 p pid prov ev0).events =
      ev0 ++ [Event.fundsLocked l]) ∨
    (∃ l tail, (createPayoutLock w2 p pid prov ev0).events =
      ev0 ++ Event.fundsLocked l :: Event.fundsLockedTransition ::
        Event.providerCalled :: tail) := by
  unfold createPayoutLock
  split
  · exact Or.inl rfl
  · split
    · exact Or.inr (Or.inl ⟨_, rfl⟩)
    · right; right
      rename_i x1 lockEntry ledger2 heq1 x2 w4 heq2
      obtain ⟨tail, ht⟩ := createPayoutSend_events w4 p pid prov _
      exact ⟨lockEntry.id, tail, by rw [ht]; simp⟩

/-- The traces a whole try block can produce. -/
theorem createPayoutTry_events (w : World) (p : CreatePayoutParams)
    (prov : Except AppErr String) :
    (createPayoutTry w p prov).events = [] ∨
    (∃ i, (createPayoutTry w p prov).events = [Event.payoutCreated i]) ∨
    (∃ i l, (createPayoutTry w p prov).events =
      [Event.payoutCreated i, Event.fundsLocked l]) ∨
    (∃ i l tail, (createPayoutTry w p prov).events =
      Event.payoutCreated i :: Event.fundsLocked l ::
        Event.fundsLockedTransition :: Event.providerCalled :: tail) := by
  unfold createPayoutTry
  split
  · exact Or.inl rfl
  · split
    · exact Or.inl rfl
    · rcases createPayoutLock_events
          { w with payouts := w.payouts ++ [mkPayout w p],
                   nextPayoutId := w.nextPayoutId + 1 }
          p w.nextPayoutId prov
          [Event.payoutCreated w.nextPayoutId] with h | ⟨l, h⟩ | ⟨l, tail, h⟩
      · exact Or.inr (Or.inl ⟨_, h⟩)
      · exact Or.inr (Or.inr (Or.inl ⟨_, l, by simpa using h⟩))
      · exact Or.inr (Or.inr (Or.inr ⟨_, l, tail, by simpa using h⟩))

/-- The events of a whole run are either empty (short-circuit before the
try block) or exactly the try block's events. -/
theorem createPayout_events_cases (w : World) (p : CreatePayoutParams)
    (prov : Except AppErr String) :
    (createPayout w p prov).events = [] ∨
    ∃ w1, (createPayout w p prov).events = (createPayoutTry w1 p prov).events := by
  unfold createPayout
  split
  · exact Or.inl rfl
  · split
    · exact Or.inl rfl
    · split
      · exact Or.inl rfl
      · split
        · exact Or.inr ⟨_, rfl⟩
        · exact Or.inr ⟨_, catchPayoutFailure_events _ _ _ _⟩

/-- C9.  In every `createPayout` run, the off-ramp provider is invoked only
after the CREATED→FUNDS_LOCKED transition has succeeded: no
`providerCalled` event precedes the first `fundsLockedTransition` event; a
provider call implies both a successful transition and a successful
`lockFunds` earlier in the trace; and a run in which `lockFunds` never
succeeded (in particular, one that failed with InsufficientFunds) never
calls the provider. -/
theorem providerCallGuarded (w : World) (p : CreatePayoutParams)
    (prov : Except AppErr String) :
    noProviderBeforeLockTransition (createPayout w p prov).events = true ∧
    (Event.providerCalled ∈ (createPayout w p prov).events →
      Event.fundsLockedTransition ∈ (createPayout w p prov).events ∧
      hasFundsLocked (createPayout w p prov).events = true) ∧
    (hasFundsLocked (createPayout w p prov).events = false →
      Event.providerCalled ∉ (createPayout w p prov).events) := by
  have hshape :
      (createPayout w p prov).events = [] ∨
      (∃ i, (createPayout w p prov).events = [Event.payoutCreated i]) ∨
      (∃ i l, (createPayout w p prov).events =
        [Event.payoutCreated i, Event.fundsLocked l]) ∨
      (∃ i l tail, (createPayout w p prov).events =
        Event.payoutCreated i :: Event.fundsLocked l ::
          Event.fundsLockedTransition :: Event.providerCalled :: tail) := by
    rcases createPayout_events_cases w p prov with h | ⟨w1, h⟩
    · exact Or.inl h
    · rw [h]
      exact createPayoutTry_events w1 p prov
  rcases hshape with h | ⟨i, h⟩ | ⟨i, l, h⟩ | ⟨i, l, tail, h⟩ <;> rw [h] <;>
    refine ⟨?_, ?_, ?_⟩ <;>
    simp [noProviderBeforeLockTransition, hasFundsLocked]

/-- A funded wallet WAL of merchant M with available 500 USDC. -/
def wC9 : World :=
  { ledger := { entries := [{ id := 0, walletId := "WAL", currency := "USDC",
                              entryType := .CREDIT, amount := 500,
                              status := .SETTLED,
                              idempotencyKey := some "ck" }],
                nextId := 1 },
    idem := [], payouts := [], nextPayoutId := 0,
    wallets := [{ id := "WAL", merchantId := "M", active := true }] }

/-- A payout request for 100 USDC (within the available balance). -/
def pC9 : CreatePayoutParams :=
  { merchantId := "M", idempotencyKey := "PK1", walletId := "WAL",
    amount := 100, currency := "USDC", recipientAccount := "111",
    recipientName := "Alice" }

/-- The same request for 1000 USDC (exceeding the available balance). -/
def pC9big : CreatePayoutParams := { pC9 with amount := 1000 }

/-- Witness for C9 at concrete inputs: a successful run calls the provider
and indeed carries the earlier FUNDS_LOCKED transition, and a run whose
`lockFunds` fails with InsufficientFunds never calls the provider. -/
theorem providerCallGuardedWitness :
    Event.fundsLockedTransition ∈ (createPayout wC9 pC9 (.ok "zc-1")).events ∧
    Event.providerCalled ∉ (createPayout wC9 pC9big (.ok "zc-1")).events := by
  constructor
  · exact ((providerCallGuarded wC9 pC9 (.ok "zc-1")).2.1
      (by with_unfolding_all decide)).1
  · exact (providerCallGuarded wC9 pC9big (.ok "zc-1")).2.2
      (by with_unfolding_all decide)

/-! ## C8: retryPayout can never reach SENT_TO_PROVIDER -/

/-- `updatePayout` on the looked-up id rewrites the found record through
the update function, provided the function keeps the id. -/
theorem findPayout_updatePayout (w : World) (q : Nat) (f : Payout → Payout)
    (hf : ∀ x, (x.id == q) = true → ((f x).id == q) = true) :
    findPayout (updatePayout w q f) q = (findPayout w q).map f := by
  unfold findPayout updatePayout
  exact find?_map_ite_self _ _ _ hf

/-- The provider-call tail of `retryPayout` fails whenever the payout is
(still) FAILED: the SENT_TO_PROVIDER transition requires FUNDS_LOCKED. -/
theorem retryPayoutSend_fails (w : World) (pid : Nat)
    (prov : Except AppErr String) (po : Payout)
    (hfind : findPayout w pid = some po) (hst : po.status = .FAILED) :
    ∃ e, (retryPayoutSend w pid prov).1 = .error e := by
  unfold retryPayoutSend
  split
  · exact ⟨_, rfl⟩
  · have ht : ∀ ppid, transitionToSentToProvider w pid ppid =
        .error (.validation
          "Cannot transition to SENT_TO_PROVIDER: payout must be in FUNDS_LOCKED state") := by
      intro ppid
      unfold transitionToSentToProvider
      rw [hfind]
      simp [hst]
    rw [ht _]
    exact ⟨_, rfl⟩

/-- The re-lock path of `retryPayout` fails whenever the payout is (still)
FAILED: the FUNDS_LOCKED transition requires CREATED.  (When `lockFunds`
itself succeeds, this leaves the freshly created PENDING lock behind with
no one to release it.) -/
theorem retryPayoutRelock_fails (w1 : World) (pid : Nat) (po po1 : Payout)
    (prov : Except AppErr String)
    (hfind : findPayout w1 pid = some po1) (hst : po1.status = .FAILED) :
    ∃ e, (retryPayoutRelock w1 pid po prov).1 = .error e := by
  unfold retryPayoutRelock
  split
  · exact ⟨_, rfl⟩
  · next lockEntry ledger2 heq =>
    have ht : transitionToFundsLocked { w1 with ledger := ledger2 } pid
        lockEntry.id =
        .error (.validation
          "Cannot transition to FUNDS_LOCKED: payout must be in CREATED state") := by
      unfold transitionToFundsLocked
      rw [show findPayout { w1 with ledger := ledger2 } pid = findPayout w1 pid
        from rfl, hfind]
      simp [hst]
    rw [ht]
    exact ⟨_, rfl⟩

/-- `retryPayout` always returns an error. -/
theorem retryPayoutErrAux (w : World) (payoutId : Nat)
    (prov : Except AppErr String) :
    ∃ e, (retryPayout w payoutId prov).1 = .error e := by
  unfold retryPayout
  split
  · exact ⟨_, rfl⟩
  · next po hf =>
    by_cases hst : po.status ≠ .FAILED
    · rw [if_pos hst]
      exact ⟨_, rfl⟩
    · rw [if_neg hst]
      push_neg at hst
      have hf1 : findPayout (bumpRetryCount w payoutId po.retryCount) payoutId =
          some { po with retryCount := po.retryCount + 1 } := by
        unfold bumpRetryCount
        rw [findPayout_updatePayout w payoutId _ (fun x hx => by simpa using hx),
          hf]
        rfl
      cases hlk : po.lockEntryId with
      | none => exact retryPayoutRelock_fails _ payoutId po _ prov hf1 (by simp [hst])
      | some lid => exact retryPayoutSend_fails _ payoutId prov _ hf1 (by simp [hst])

/-- A FAILED payout (id 7, retry count 0, no lock reference) of merchant M
over a funded wallet. -/
def wC8 : World :=
  { ledger := { entries := [{ id := 0, walletId := "WAL", currency := "USDC",
                              entryType := .CREDIT, amount := 500,
                              status := .SETTLED,
                              idempotencyKey := some "ck" }],
                nextId := 1 },
    idem := [],
    payouts := [{ id := 7, walletId := "WAL", amount := 100,
                  currency := "USDC", recipientAccount := "111",
                  recipientName := "Alice", status := .FAILED,
                  idempotencyKey := "PK",
                  providerError := some "provider down" }],
    nextPayoutId := 8,
    wallets := [{ id := "WAL", merchantId := "M", active := true }] }

/-- C8.  The claim says `retryPayout` on a FAILED payout re-locks under the
derived key, transitions back through FUNDS_LOCKED to SENT_TO_PROVIDER and
increments the retry count.  The code cannot: FAILED is terminal for the
state machine, so the FUNDS_LOCKED re-transition (no-lock path) and the
SENT_TO_PROVIDER transition (existing-lock path) are always rejected --
`retryPayout` never returns success for any store, payout and provider
outcome.  At the concrete FAILED payout, the run does increment the retry
count and does create a lock under `PK-retry-0`, then fails on the
CREATED-state precondition, leaving the fresh lock PENDING with no one to
release it.  (The not-FAILED rejection the claim also states is the `if`
guard of `retryPayout`, covered by the universal statement.) -/
theorem c8RetryPayoutNeverSucceeds :
    (∀ (w : World) (payoutId : Nat) (prov : Except AppErr String),
      ∃ e, (retryPayout w payoutId prov).1 = .error e) ∧
    (retryPayout wC8 7 (.ok "zc-2")).1 =
      .error (.validation
        "Cannot transition to FUNDS_LOCKED: payout must be in CREATED state") ∧
    (findPayout (retryPayout wC8 7 (.ok "zc-2")).2 7).map (·.retryCount) =
      some 1 ∧
    (findPayout (retryPayout wC8 7 (.ok "zc-2")).2 7).map (·.status) =
      some .FAILED ∧
    (findEntryByKey (retryPayout wC8 7 (.ok "zc-2")).2.ledger
      "PK-retry-0").map (·.status) = some .PENDING := by
  refine ⟨retryPayoutErrAux, ?_, ?_, ?_, ?_⟩ <;> with_unfolding_all decide

/-! ## C10: ledger-level idempotency matches on the key alone -/

/-- A ledger holding a SETTLED DEBIT of 7 USDC for wallet W1 under
idempotency key K. -/
def c10Db : LedgerDB :=
  { entries := [{ id := 0, walletId := "W1", currency := "USDC",
                  entryType := .DEBIT, amount := 7, status := .SETTLED,
                  idempotencyKey := some "K" }],
    nextId := 1 }

/-- C10 counterexample.  The claim says a credit carrying an idempotency
key that already exists returns the existing entry "with no error and no
payload validation".  Not quite: `validateAmount` runs before the
idempotency lookup, so a call whose own amount is malformed (here 0) is
rejected with a ValidationError even though an entry with its key exists. -/
theorem c10AmountValidatedBeforeIdempotency :
    credit c10Db { walletId := "W2", currency := "NGN", amount := 0,
                   idempotencyKey := some "K" } =
      .error (.validation "Amount must be greater than zero") := by
  with_unfolding_all decide

/-- C10 as amended.  Provided only that the call's own amount passes amount
validation, `credit` and `debit` with an idempotency key under which any
ledger entry exists return that entry unchanged and append nothing -- no
comparison whatsoever of the entry's wallet, currency, amount or entry type
against the call's parameters (the key is globally unique across wallets,
and `debit` does not even reach its balance check). -/
theorem creditDebitMatchOnKeyAlone (db : LedgerDB) (k : String)
    (e : LedgerEntry) (pc : CreditParams) (pd : DebitParams)
    (hvc : validateAmount pc.amount = .ok ())
    (hvd : validateAmount pd.amount = .ok ())
    (hkc : pc.idempotencyKey = some k) (hkd : pd.idempotencyKey = some k)
    (hfound : findEntryByKey db k = some e) :
    credit db pc = .ok (e, db) ∧ debit db pd = .ok (e, db) := by
  constructor
  · unfold credit
    rw [hvc, hkc]
    dsimp only
    rw [hfound]
  · unfold debit
    rw [hvd, hkd]
    dsimp only
    rw [hfound]

/-- Witness for the amended C10: a credit of 123 NGN for wallet W2 under
key K returns the stored DEBIT of 7 USDC for W1 unchanged, as does a debit
of 99 NGN, and the ledger is untouched. -/
theorem creditDebitMatchOnKeyAloneWitness :
    credit c10Db { walletId := "W2", currency := "NGN", amount := 123,
                   idempotencyKey := some "K" } =
      .ok ({ id := 0, walletId := "W1", currency := "USDC",
             entryType := .DEBIT, amount := 7, status := .SETTLED,
             idempotencyKey := some "K" }, c10Db) ∧
    debit c10Db { walletId := "W2", currency := "NGN", amount := 99,
                  idempotencyKey := some "K" } =
      .ok ({ id := 0, walletId := "W1", currency := "USDC",
             entryType := .DEBIT, amount := 7, status := .SETTLED,
             idempotencyKey := some "K" }, c10Db) :=
  creditDebitMatchOnKeyAlone c10Db "K" _ _ _
    (by with_unfolding_all decide) (by with_unfolding_all decide) rfl rfl
    (by with_unfolding_all decide)

/-! ## C4: a failed createPayout compensates fully -/

/-- Generic: a prefix `find?` cannot hit passes through to the suffix. -/
theorem find?_append_none {α : Type} (p : α → Bool) (l1 l2 : List α)
    (h : l1.find? p = none) : (l1 ++ l2).find? p = l2.find? p := by
  simp [List.find?_append, h]

/-- Generic: an update guarded by a predicate nothing satisfies is the
identity. -/
theorem map_ite_id {α : Type} (q : α → Bool) (f : α → α) (l : List α)
    (hq : ∀ x ∈ l, q x = false) :
    (l.map fun x => if q x then f x else x) = l := by
  induction l with
  | nil => rfl
  | cons x xs ih =>
    have hx := hq x (List.mem_cons_self x xs)
    simp [hx, ih fun y hy => hq y (List.mem_cons_of_mem _ hy)]

/-- Generic: under a duplicate-free key column, looking a member up by its
key finds exactly it. -/
theorem find?_key_of_mem {α β : Type} [BEq β] [LawfulBEq β] (key : α → β)
    (l : List α) (x : α) (hnd : (l.map key).Nodup) (hx : x ∈ l) :
    l.find? (fun y => key y == key x) = some x := by
  induction l with
  | nil => cases hx
  | cons y ys ih =>
    rcases List.mem_cons.mp hx with rfl | hx'
    · rw [List.find?_cons_of_pos _ (by simp)]
    · by_cases hk : (key y == key x) = true
      · exfalso
        have hmem : key x ∈ ys.map key := List.mem_map_of_mem key hx'
        have hhead := (List.nodup_cons.mp hnd).1
        rw [eq_of_beq hk] at hhead
        exact hhead hmem
      · rw [List.find?_cons_of_neg _ (by simp [hk])]
        exact ih (List.nodup_cons.mp hnd).2 hx'

/-- `storeIdempotency` succeeds exactly when no record for the pair exists,
and then appends a fresh PENDING record. -/
theorem storeIdempotency_ok {ρ : Type} (db : IdemDB ρ)
    (m k mth pth : String) (body : Json) (db' : IdemDB ρ)
    (h : storeIdempotency db m k mth pth body = .ok db') :
    findIdemRecord db m k = none ∧
    db' = db ++ [{ merchantId := m, key := k,
                   requestHash := hashRequestBody body,
                   requestMethod := mth, requestPath := pth,
                   status := .PENDING }] := by
  unfold storeIdempotency at h
  split at h
  · next hf =>
    injection h with h'
    exact ⟨hf, h'.symm⟩
  · repeat' split at h
    all_goals simp at h

/-- `failIdempotency` on an existing record succeeds and flips exactly the
matching records to FAILED; the record found afterwards is the FAILED copy
of the one found before. -/
theorem failIdempotency_ok {ρ : Type} (db : IdemDB ρ) (m k : String)
    (r : IdemRecord ρ) (hfind : findIdemRecord db m k = some r) :
    failIdempotency db m k =
      .ok (db.map fun x =>
        if x.merchantId == m && x.key == k then { x with status := .FAILED }
        else x) ∧
    findIdemRecord
      (db.map fun x =>
        if x.merchantId == m && x.key == k then { x with status := .FAILED }
        else x) m k = some { r with status := .FAILED } := by
  constructor
  · unfold failIdempotency
    rw [show findIdemRecord db m k = some r from hfind]
    rfl
  · unfold findIdemRecord at hfind ⊢
    rw [find?_map_ite_self _ _ _ (fun x hx => by
      simp only [Bool.and_eq_true, beq_iff_eq] at hx ⊢
      exact hx), hfind]
    rfl

/-- `completeIdempotency` on an existing record succeeds. -/
theorem completeIdempotency_ok {ρ : Type} (db : IdemDB ρ) (m k : String)
    (sc : Nat) (body : ρ) (hfind : (findIdemRecord db m k).isSome) :
    completeIdempotency db m k sc body =
      .ok (db.map fun x =>
        if x.merchantId == m && x.key == k then
          { x with status := .COMPLETED, statusCode := sc,
                   responseBody := some body }
        else x) := by
  unfold completeIdempotency
  rw [if_pos hfind]

/-- A successful `lockFunds` hands back a PENDING LOCK entry that the new
ledger can look up by id, and preserves id-uniqueness and the id bound. -/
theorem lockFunds_ok (db : LedgerDB) (prm : LockFundsParams)
    (entry : LedgerEntry) (db' : LedgerDB)
    (hnd : (db.entries.map (·.id)).Nodup)
    (hbd : ∀ x ∈ db.entries, x.id < db.nextId)
    (h : lockFunds db prm = .ok (entry, db')) :
    entry.entryType = .LOCK ∧ entry.status = .PENDING ∧
    findEntryById db' entry.id = some entry ∧
    (db'.entries.map (·.id)).Nodup ∧
    (∀ x ∈ db'.entries, x.id < db'.nextId) := by
  unfold lockFunds at h
  split at h
  · simp at h
  · split at h
    · next existing hk =>
      split at h
      · next hls =>
        injection h with h'
        have h1 : existing = entry := congrArg Prod.fst h'
        have h2 : db = db' := congrArg Prod.snd h'
        subst h1
        subst h2
        refine ⟨hls.1, hls.2, ?_, hnd, hbd⟩
        unfold findEntryById
        exact find?_key_of_mem (fun x => x.id) db.entries existing hnd
          (List.mem_of_find?_eq_some hk)
      · simp at h
    · split at h
      · simp at h
      · split at h
        · simp at h
        · injection h with h'
          have h1 : (appendEntry db fun i =>
              { id := i, walletId := prm.walletId, currency := prm.currency,
                entryType := .LOCK, amount := prm.amount,
                status := .PENDING,
                idempotencyKey := some prm.idempotencyKey }).1 = entry :=
            congrArg Prod.fst h'
          have h2 : (appendEntry db fun i =>
              { id := i, walletId := prm.walletId, currency := prm.currency,
                entryType := .LOCK, amount := prm.amount,
                status := .PENDING,
                idempotencyKey := some prm.idempotencyKey }).2 = db' :=
            congrArg Prod.snd h'
          subst h1
          subst h2
          unfold appendEntry
          refine ⟨rfl, rfl, ?_, ?_, ?_⟩
          · unfold findEntryById
            dsimp only
            rw [find?_append_none _ _ _ (by
              rw [List.find?_eq_none]
              intro x hx
              simp only [beq_iff_eq]
              exact Nat.ne_of_lt (hbd x hx))]
            rw [List.find?_cons_of_pos _ (by simp)]
          · dsimp only
            simp only [List.map_append, List.map_cons, List.map_nil]
            rw [List.nodup_append]
            refine ⟨hnd, List.nodup_singleton _, ?_⟩
            intro a ha hb
            simp only [List.mem_singleton] at hb
            subst hb
            obtain ⟨x, hx, hxa⟩ := List.mem_map.mp ha
            exact Nat.ne_of_lt (hbd x hx) hxa
          · dsimp only
            intro x hx
            rcases List.mem_append.mp hx with hx' | hx'
            · exact Nat.lt_succ_of_lt (hbd x hx')
            · simp only [List.mem_singleton] at hx'
              subst hx'
              exact Nat.lt_succ_self _

/-- The payout record written by `transitionToFailed`. -/
def failedPayout (po : Payout) (reason : String) (perr : Option String) :
    Payout :=
  { po with status := .FAILED, providerError := perr,
            stateHistory := po.stateHistory ++
              [⟨po.status, .FAILED, some reason⟩] }

/-- The payout record written by `transitionToFundsLocked`. -/
def fundsLockedPayout (po : Payout) (lid : Nat) : Payout :=
  { po with status := .FUNDS_LOCKED, lockEntryId := some lid,
            stateHistory := po.stateHistory ++
              [⟨.CREATED, .FUNDS_LOCKED, some "Funds locked in ledger"⟩] }

/-- The payout record written by `transitionToSentToProvider`. -/
def sentPayout (po : Payout) (ppid : String) : Payout :=
  { po with status := .SENT_TO_PROVIDER, providerPayoutId := some ppid,
            stateHistory := po.stateHistory ++
              [⟨.FUNDS_LOCKED, .SENT_TO_PROVIDER, some "Sent to provider"⟩] }

/-- `transitionToFailed` succeeds on a non-terminal payout, writing the
FAILED status and appending the failure reason to the history. -/
theorem transitionToFailed_ok (w : World) (pid : Nat) (po : Payout)
    (reason : String) (perr : Option String)
    (hfind : findPayout w pid = some po)
    (hterm : ¬(po.status = .COMPLETED ∨ po.status = .FAILED)) :
    transitionToFailed w pid reason perr =
      .ok (updatePayout w pid fun _ => failedPayout po reason perr) := by
  unfold transitionToFailed failedPayout
  rw [hfind]
  dsimp only
  rw [if_neg hterm]

/-- `transitionToFundsLocked` succeeds on a CREATED payout with a valid
pending LOCK entry. -/
theorem transitionToFundsLocked_ok (w : World) (pid lid : Nat) (po : Payout)
    (le : LedgerEntry)
    (hfind : findPayout w pid = some po) (hst : po.status = .CREATED)
    (hle : findEntryById w.ledger lid = some le)
    (hty : le.entryType = .LOCK) (hles : le.status = .PENDING) :
    transitionToFundsLocked w pid lid =
      .ok (updatePayout w pid fun _ => fundsLockedPayout po lid) := by
  unfold transitionToFundsLocked fundsLockedPayout
  rw [hfind]
  dsimp only
  rw [if_neg (by simp [hst]), hle]
  dsimp only
  rw [if_neg (by simp [hty, hles])]

/-- `transitionToSentToProvider` succeeds on a FUNDS_LOCKED payout with a
lock reference. -/
theorem transitionToSentToProvider_ok (w : World) (pid : Nat)
    (ppid : String) (po : Payout)
    (hfind : findPayout w pid = some po) (hst : po.status = .FUNDS_LOCKED)
    (hlk : po.lockEntryId.isSome) :
    transitionToSentToProvider w pid ppid =
      .ok (updatePayout w pid fun _ => sentPayout po ppid) := by
  unfold transitionToSentToProvider sentPayout
  rw [hfind]
  dsimp only
  rw [if_neg (by simp [hst]), if_neg (show ¬po.lockEntryId.isNone = true by
    simp only [Option.isNone_iff_eq_none]
    intro hc
    rw [hc] at hlk
    simp at hlk)]

/-- The ledger after `releaseFunds` resolves a lock: RELEASE row appended,
lock marked CANCELLED. -/
def releasedLedger (db : LedgerDB) (le : LedgerEntry) : LedgerDB :=
  { entries := (db.entries ++ [mkResolutionEntry db le .RELEASE]).map
      (fun e => if e.id == le.id then { e with status := EntryStatus.CANCELLED }
                else e),
    nextId := db.nextId + 1 }

/-- `releaseFunds` on a pending LOCK succeeds and the lock entry reads back
CANCELLED (the appended RELEASE row has a fresh id, so it cannot shadow the
lock in an id lookup). -/
theorem releaseFunds_ok (db : LedgerDB) (lid : Nat) (le : LedgerEntry)
    (hfind : findEntryById db lid = some le)
    (hty : le.entryType = .LOCK) (hst : le.status = .PENDING) :
    releaseFunds db lid = .ok (mkResolutionEntry db le .RELEASE,
      releasedLedger db le) ∧
    findEntryById (releasedLedger db le) lid =
      some { le with status := .CANCELLED } := by
  have hfind' : List.find? (fun e => e.id == lid) db.entries = some le := by
    simpa [findEntryById] using hfind
  have hid : le.id = lid := by simpa using List.find?_some hfind'
  subst hid
  constructor
  · unfold releaseFunds
    rw [hfind]
    dsimp only
    rw [if_neg (by simp [hty]), if_neg (by simp [hst])]
    rfl
  · unfold findEntryById releasedLedger
    dsimp only
    rw [find?_map_ite_self (fun e : LedgerEntry => e.id == le.id)
      (fun e => { e with status := EntryStatus.CANCELLED }) _
      (fun x hx => by simpa using hx)]
    rw [List.find?_append, hfind']
    rfl

/-- `failedPayout` keeps the id. -/
theorem failedPayout_id (po : Payout) (reason : String)
    (perr : Option String) : (failedPayout po reason perr).id = po.id := rfl

/-- `failPayout` on a non-terminal payout without a lock reference: the
payout is marked FAILED with the reason appended; ledger and idempotency
store are untouched. -/
theorem failPayout_ok_noLock (w : World) (pid : Nat) (po : Payout)
    (reason : String)
    (hfind : findPayout w pid = some po)
    (hterm : ¬(po.status = .COMPLETED ∨ po.status = .FAILED))
    (hlk : po.lockEntryId = none) :
    ∃ wF, failPayout w pid reason none = .ok wF ∧
      findPayout wF pid = some (failedPayout po reason none) ∧
      wF.ledger = w.ledger ∧ wF.idem = w.idem := by
  have h1 := findPayout_updatePayout w pid
    (fun _ => failedPayout po reason none)
    (fun x hx => by simp [failedPayout_id, findPayout_some_id hfind])
  rw [hfind] at h1
  refine ⟨updatePayout w pid fun _ => failedPayout po reason none,
    ?_, ?_, rfl, rfl⟩
  · unfold failPayout
    rw [hfind]
    dsimp only
    rw [transitionToFailed_ok w pid po reason none hfind hterm]
    dsimp only
    rw [hlk]
  · exact h1

/-- `failPayout` on a non-terminal payout with a pending-LOCK reference:
the payout is marked FAILED and the lock is released (now CANCELLED); the
idempotency store is untouched. -/
theorem failPayout_ok_lock (w : World) (pid : Nat) (po : Payout)
    (reason : String) (lid : Nat) (le : LedgerEntry)
    (hfind : findPayout w pid = some po)
    (hterm : ¬(po.status = .COMPLETED ∨ po.status = .FAILED))
    (hlk : po.lockEntryId = some lid)
    (hle : findEntryById w.ledger lid = some le)
    (hty : le.entryType = .LOCK) (hst : le.status = .PENDING) :
    ∃ wF, failPayout w pid reason none = .ok wF ∧
      findPayout wF pid = some (failedPayout po reason none) ∧
      findEntryById wF.ledger lid = some { le with status := .CANCELLED } ∧
      wF.idem = w.idem := by
  have h1 := findPayout_updatePayout w pid
    (fun _ => failedPayout po reason none)
    (fun x hx => by simp [failedPayout_id, findPayout_some_id hfind])
  rw [hfind] at h1
  obtain ⟨hrel, hrfind⟩ := releaseFunds_ok w.ledger lid le hle hty hst
  refine ⟨{ (updatePayout w pid fun _ => failedPayout po reason none) with
            ledger := releasedLedger w.ledger le }, ?_, ?_, ?_, rfl⟩
  · unfold failPayout
    rw [hfind]
    dsimp only
    rw [transitionToFailed_ok w pid po reason none hfind hterm]
    dsimp only
    rw [hlk]
    dsimp only
    rw [show releaseFunds (updatePayout w pid fun _ =>
        failedPayout po reason none).ledger lid = releaseFunds w.ledger lid
      from rfl, hrel]
  · exact h1
  · exact hrfind

/-- Generic: updating at a key only the fresh tail element carries. -/
theorem map_ite_append_fresh {α : Type} (q : α → Bool) (f : α → α)
    (l : List α) (x : α) (hl : ∀ y ∈ l, q y = false) (hx : q x = true) :
    ((l ++ [x]).map fun y => if q y then f y else y) = l ++ [f x] := by
  rw [List.map_append, map_ite_id q f l hl]
  simp [hx]

/-- Store sanity: ledger ids are unique and below the ledger counter, and
payout ids are below the payout counter (all are Prisma-generated). -/
def WFWorld (w : World) : Prop :=
  (w.ledger.entries.map (·.id)).Nodup ∧
  (∀ x ∈ w.ledger.entries, x.id < w.ledger.nextId) ∧
  (∀ po ∈ w.payouts, po.id < w.nextPayoutId)

instance (w : World) : Decidable (WFWorld w) := by
  unfold WFWorld
  infer_instance

/-- The freshly appended payout is found by its fresh id. -/
theorem findPayout_append_fresh (w1 : World) (p : CreatePayoutParams)
    (hbdP : ∀ po ∈ w1.payouts, po.id < w1.nextPayoutId) :
    findPayout
      { w1 with payouts := w1.payouts ++ [mkPayout w1 p],
                nextPayoutId := w1.nextPayoutId + 1 } w1.nextPayoutId =
      some (mkPayout w1 p) := by
  unfold findPayout
  dsimp only
  rw [find?_append_none _ _ _ (by
    rw [List.find?_eq_none]
    intro po hpo
    simp only [beq_iff_eq]
    exact Nat.ne_of_lt (hbdP po hpo))]
  rw [List.find?_cons_of_pos _ (by simp [mkPayout])]

/-- The freshly appended payout is found by its idempotency key, given the
uniqueness guard held. -/
theorem findPayoutByKey_append_fresh (w1 : World) (p : CreatePayoutParams)
    (hguard : findPayoutByKey w1 p.idempotencyKey = none) :
    findPayoutByKey
      { w1 with payouts := w1.payouts ++ [mkPayout w1 p],
                nextPayoutId := w1.nextPayoutId + 1 } p.idempotencyKey =
      some (mkPayout w1 p) := by
  unfold findPayoutByKey at hguard ⊢
  dsimp only
  rw [find?_append_none _ _ _ hguard]
  rw [List.find?_cons_of_pos _ (by simp [mkPayout])]

/-- The catch block, when the failing payout holds no lock reference:
payout FAILED with the reason appended, ledger untouched, idempotency
record FAILED, original error re-raised. -/
theorem catch_compensates_noLock (wld : World) (p : CreatePayoutParams)
    (e : AppErr) (evs : List Event) (po1 : Payout)
    (rec : IdemRecord PayoutResult)
    (hkey : p.idempotencyKey ≠ "")
    (hKey : findPayoutByKey wld p.idempotencyKey = some po1)
    (hfindId : findPayout wld po1.id = some po1)
    (hterm : ¬(po1.status = .COMPLETED ∨ po1.status = .FAILED))
    (hlk : po1.lockEntryId = none)
    (hidem : findIdemRecord wld.idem p.merchantId p.idempotencyKey = some rec) :
    (catchPayoutFailure wld p e evs).result = .error e ∧
    findPayout (catchPayoutFailure wld p e evs).world po1.id =
      some (failedPayout po1 (errMessage e) none) ∧
    (catchPayoutFailure wld p e evs).world.ledger = wld.ledger ∧
    findIdemRecord (catchPayoutFailure wld p e evs).world.idem
      p.merchantId p.idempotencyKey = some { rec with status := .FAILED } := by
  obtain ⟨wF, hFP, hfindF, hledF, hidemF⟩ :=
    failPayout_ok_noLock wld po1.id po1 (errMessage e) hfindId hterm hlk
  push_neg at hterm
  have hcc : catchCompensate wld p e = wF := by
    unfold catchCompensate
    rw [if_pos hkey, hKey]
    dsimp only
    rw [if_pos hterm, hFP]
  obtain ⟨hfail, hfindrec⟩ :=
    failIdempotency_ok wld.idem p.merchantId p.idempotencyKey rec hidem
  unfold catchPayoutFailure finishCatch
  rw [hcc, show failIdempotency wF.idem p.merchantId p.idempotencyKey =
    failIdempotency wld.idem p.merchantId p.idempotencyKey from by
      rw [hidemF], hfail]
  exact ⟨rfl, hfindF, hledF, hfindrec⟩

/-- The catch block, when the failing payout references a pending lock:
payout FAILED, lock released (CANCELLED), idempotency record FAILED,
original error re-raised. -/
theorem catch_compensates_lock (wld : World) (p : CreatePayoutParams)
    (e : AppErr) (evs : List Event) (po1 : Payout) (lid : Nat)
    (le : LedgerEntry) (rec : IdemRecord PayoutResult)
    (hkey : p.idempotencyKey ≠ "")
    (hKey : findPayoutByKey wld p.idempotencyKey = some po1)
    (hfindId : findPayout wld po1.id = some po1)
    (hterm : ¬(po1.status = .COMPLETED ∨ po1.status = .FAILED))
    (hlk : po1.lockEntryId = some lid)
    (hle : findEntryById wld.ledger lid = some le)
    (hty : le.entryType = .LOCK) (hst : le.status = .PENDING)
    (hidem : findIdemRecord wld.idem p.merchantId p.idempotencyKey = some rec) :
    (catchPayoutFailure wld p e evs).result = .error e ∧
    findPayout (catchPayoutFailure wld p e evs).world po1.id =
      some (failedPayout po1 (errMessage e) none) ∧
    findEntryById (catchPayoutFailure wld p e evs).world.ledger lid =
      some { le with status := .CANCELLED } ∧
    findIdemRecord (catchPayoutFailure wld p e evs).world.idem
      p.merchantId p.idempotencyKey = some { rec with status := .FAILED } := by
  obtain ⟨wF, hFP, hfindF, hrelF, hidemF⟩ :=
    failPayout_ok_lock wld po1.id po1 (errMessage e) lid le hfindId hterm hlk
      hle hty hst
  push_neg at hterm
  have hcc : catchCompensate wld p e = wF := by
    unfold catchCompensate
    rw [if_pos hkey, hKey]
    dsimp only
    rw [if_pos hterm, hFP]
  obtain ⟨hfail, hfindrec⟩ :=
    failIdempotency_ok wld.idem p.merchantId p.idempotencyKey rec hidem
  unfold catchPayoutFailure finishCatch
  rw [hcc, show failIdempotency wF.idem p.merchantId p.idempotencyKey =
    failIdempotency wld.idem p.merchantId p.idempotencyKey from by
      rw [hidemF], hfail]
  exact ⟨rfl, hfindF, hrelF, hfindrec⟩

/-- After a successful store, a failing try block is fully compensated by
the catch block: the created payout ends FAILED with the reason appended,
any lock acquired during the run ends CANCELLED, the idempotency record is
FAILED, and the original error is re-raised. -/
theorem tryCatch_compensates (w1 : World) (p : CreatePayoutParams)
    (prov : Except AppErr String) (e : AppErr) (pid : Nat)
    (rec : IdemRecord PayoutResult)
    (hndL : (w1.ledger.entries.map (·.id)).Nodup)
    (hbdL : ∀ x ∈ w1.ledger.entries, x.id < w1.ledger.nextId)
    (hbdP : ∀ po ∈ w1.payouts, po.id < w1.nextPayoutId)
    (hkey : p.idempotencyKey ≠ "")
    (hidem : findIdemRecord w1.idem p.merchantId p.idempotencyKey = some rec)
    (hres : (createPayoutTry w1 p prov).result = .error e)
    (hcreated : Event.payoutCreated pid ∈ (createPayoutTry w1 p prov).events) :
    (catchPayoutFailure (createPayoutTry w1 p prov).world p e
        (createPayoutTry w1 p prov).events).result = .error e ∧
    (∃ po, findPayout (catchPayoutFailure (createPayoutTry w1 p prov).world
        p e (createPayoutTry w1 p prov).events).world pid = some po ∧
      po.status = .FAILED ∧
      ∃ t, po.stateHistory.getLast? = some t ∧ t.toState = .FAILED ∧
        t.reason = some (errMessage e)) ∧
    (∀ lid, Event.fundsLocked lid ∈ (createPayoutTry w1 p prov).events →
      ∃ le, findEntryById (catchPayoutFailure (createPayoutTry w1 p prov).world
          p e (createPayoutTry w1 p prov).events).world.ledger lid = some le ∧
        le.entryType = .LOCK ∧ le.status = .CANCELLED) ∧
    (∃ r, findIdemRecord (catchPayoutFailure (createPayoutTry w1 p prov).world
        p e (createPayoutTry w1 p prov).events).world.idem
        p.merchantId p.idempotencyKey = some r ∧ r.status = .FAILED) := by
  cases hW : w1.wallets.find? (fun wl =>
      wl.id == p.walletId && wl.merchantId == p.merchantId && wl.active) with
  | none =>
    have hTry : createPayoutTry w1 p prov =
        ⟨.error (.notFound "Wallet" p.walletId), w1, []⟩ := by
      unfold createPayoutTry
      rw [hW]
    rw [hTry] at hcreated
    simp at hcreated
  | some wal =>
    cases hg : findPayoutByKey w1 p.idempotencyKey with
    | some po0 =>
      have hTry : createPayoutTry w1 p prov =
          ⟨.error .uniqueViolation, w1, []⟩ := by
        unfold createPayoutTry
        rw [hW]
        dsimp only
        rw [if_pos (by simp [hg])]
      rw [hTry] at hcreated
      simp at hcreated
    | none =>
      have hFP2 : findPayout
          { w1 with payouts := w1.payouts ++ [mkPayout w1 p],
                    nextPayoutId := w1.nextPayoutId + 1 } w1.nextPayoutId =
          some (mkPayout w1 p) := findPayout_append_fresh w1 p hbdP
      have hKey2 : findPayoutByKey
          { w1 with payouts := w1.payouts ++ [mkPayout w1 p],
                    nextPayoutId := w1.nextPayoutId + 1 } p.idempotencyKey =
          some (mkPayout w1 p) := findPayoutByKey_append_fresh w1 p hg
      cases hL : lockFunds w1.ledger
          ⟨p.walletId, p.currency, p.amount, p.idempotencyKey⟩ with
      | error eL =>
        have hTry : createPayoutTry w1 p prov =
            ⟨.error eL,
             { w1 with payouts := w1.payouts ++ [mkPayout w1 p],
                       nextPayoutId := w1.nextPayoutId + 1 },
             [Event.payoutCreated w1.nextPayoutId]⟩ := by
          unfold createPayoutTry createPayoutLock
          rw [hW]
          dsimp only
          rw [if_neg (by simp [hg])]
          rw [hL]
        rw [hTry] at hres hcreated ⊢
        dsimp only at hres hcreated ⊢
        injection hres with heq
        subst heq
        simp only [List.mem_singleton, Event.payoutCreated.injEq] at hcreated
        subst hcreated
        obtain ⟨hcr, hcf, hcl, hci⟩ := catch_compensates_noLock
          { w1 with payouts := w1.payouts ++ [mkPayout w1 p],
                    nextPayoutId := w1.nextPayoutId + 1 }
          p eL [Event.payoutCreated w1.nextPayoutId] (mkPayout w1 p) rec hkey
          hKey2 hFP2 (by simp [mkPayout]) rfl hidem
        refine ⟨hcr, ⟨_, hcf, rfl, ⟨_, List.getLast?_concat _, rfl, rfl⟩⟩,
          ?_, ⟨_, hci, rfl⟩⟩
        intro lid hmem
        simp at hmem
      | ok pr =>
        obtain ⟨lockEntry, ledger2⟩ := pr
        obtain ⟨htyL, hstL, hfindL2, hnd2, hbd2⟩ :=
          lockFunds_ok w1.ledger _ lockEntry ledger2 hndL hbdL hL
        have hFP3 : findPayout
            { w1 with ledger := ledger2,
                      payouts := w1.payouts ++ [mkPayout w1 p],
                      nextPayoutId := w1.nextPayoutId + 1 } w1.nextPayoutId =
            some (mkPayout w1 p) := hFP2
        have htfl : transitionToFundsLocked
            { w1 with ledger := ledger2,
                      payouts := w1.payouts ++ [mkPayout w1 p],
                      nextPayoutId := w1.nextPayoutId + 1 }
            w1.nextPayoutId lockEntry.id =
            .ok (updatePayout
              { w1 with ledger := ledger2,
                        payouts := w1.payouts ++ [mkPayout w1 p],
                        nextPayoutId := w1.nextPayoutId + 1 }
              w1.nextPayoutId
              (fun _ => fundsLockedPayout (mkPayout w1 p) lockEntry.id)) :=
          transitionToFundsLocked_ok _ _ _ _ _ hFP3 (by simp [mkPayout])
            hfindL2 htyL hstL
        have hTry : createPayoutTry w1 p prov =
            createPayoutSend
              (updatePayout
                { w1 with ledger := ledger2,
                          payouts := w1.payouts ++ [mkPayout w1 p],
                          nextPayoutId := w1.nextPayoutId + 1 }
                w1.nextPayoutId
                (fun _ => fundsLockedPayout (mkPayout w1 p) lockEntry.id))
              p w1.nextPayoutId prov
              [Event.payoutCreated w1.nextPayoutId,
               Event.fundsLocked lockEntry.id,
               Event.fundsLockedTransition] := by
          unfold createPayoutTry createPayoutLock
          rw [hW]
          dsimp only
          rw [if_neg (by simp [hg])]
          rw [hL]
          dsimp only
          rw [htfl]
          rfl
        have hFP4 : findPayout
            (updatePayout
              { w1 with ledger := ledger2,
                        payouts := w1.payouts ++ [mkPayout w1 p],
                        nextPayoutId := w1.nextPayoutId + 1 }
              w1.nextPayoutId
              (fun _ => fundsLockedPayout (mkPayout w1 p) lockEntry.id))
            w1.nextPayoutId =
            some (fundsLockedPayout (mkPayout w1 p) lockEntry.id) := by
          have h := findPayout_updatePayout
            { w1 with ledger := ledger2,
                      payouts := w1.payouts ++ [mkPayout w1 p],
                      nextPayoutId := w1.nextPayoutId + 1 }
            w1.nextPayoutId
            (fun _ => fundsLockedPayout (mkPayout w1 p) lockEntry.id)
            (fun x hx => by simp [fundsLockedPayout, mkPayout])
          rw [hFP3] at h
          exact h
        cases hP : sendToProvider prov with
        | error eP =>
          have hTry2 : createPayoutTry w1 p prov =
              ⟨.error eP,
               updatePayout
                 { w1 with ledger := ledger2,
                           payouts := w1.payouts ++ [mkPayout w1 p],
                           nextPayoutId := w1.nextPayoutId + 1 }
                 w1.nextPayoutId
                 (fun _ => fundsLockedPayout (mkPayout w1 p) lockEntry.id),
               [Event.payoutCreated w1.nextPayoutId,
                Event.fundsLocked lockEntry.id, Event.fundsLockedTransition,
                Event.providerCalled]⟩ := by
            rw [hTry]
            unfold createPayoutSend
            rw [hP]
            rfl
          rw [hTry2] at hres hcreated ⊢
          dsimp only at hres hcreated ⊢
          injection hres with heq
          subst heq
          simp at hcreated
          subst hcreated
          have hKey4 : findPayoutByKey
              (updatePayout
                { w1 with ledger := ledger2,
                          payouts := w1.payouts ++ [mkPayout w1 p],
                          nextPayoutId := w1.nextPayoutId + 1 }
                w1.nextPayoutId
                (fun _ => fundsLockedPayout (mkPayout w1 p) lockEntry.id))
              p.idempotencyKey =
              some (fundsLockedPayout (mkPayout w1 p) lockEntry.id) := by
            unfold findPayoutByKey updatePayout
            dsimp only
            rw [map_ite_append_fresh _ _ _ _
              (fun y hy => by simp [Nat.ne_of_lt (hbdP y hy)])
              (by simp [mkPayout])]
            rw [find?_append_none _ _ _ (by
              unfold findPayoutByKey at hg
              exact hg)]
            rw [List.find?_cons_of_pos _ (by simp [fundsLockedPayout, mkPayout])]
          obtain ⟨hcr, hcf, hcl, hci⟩ := catch_compensates_lock
            (updatePayout
              { w1 with ledger := ledger2,
                        payouts := w1.payouts ++ [mkPayout w1 p],
                        nextPayoutId := w1.nextPayoutId + 1 }
              w1.nextPayoutId
              (fun _ => fundsLockedPayout (mkPayout w1 p) lockEntry.id))
            p eP
            [Event.payoutCreated w1.nextPayoutId,
             Event.fundsLocked lockEntry.id, Event.fundsLockedTransition,
             Event.providerCalled]
            (fundsLockedPayout (mkPayout w1 p) lockEntry.id)
            lockEntry.id lockEntry rec hkey hKey4 hFP4
            (by simp [fundsLockedPayout]) rfl hfindL2 htyL hstL hidem
          refine ⟨hcr, ⟨_, hcf, rfl, ⟨_, List.getLast?_concat _, rfl, rfl⟩⟩,
            ?_, ⟨_, hci, rfl⟩⟩
          intro lid' hmem
          simp at hmem
          subst hmem
          exact ⟨{ lockEntry with status := .CANCELLED }, hcl, htyL, rfl⟩
        | ok ppid =>
          have hsts : transitionToSentToProvider
              (updatePayout
                { w1 with ledger := ledger2,
                          payouts := w1.payouts ++ [mkPayout w1 p],
                          nextPayoutId := w1.nextPayoutId + 1 }
                w1.nextPayoutId
                (fun _ => fundsLockedPayout (mkPayout w1 p) lockEntry.id))
              w1.nextPayoutId ppid =
              .ok (updatePayout
                (updatePayout
                  { w1 with ledger := ledger2,
                            payouts := w1.payouts ++ [mkPayout w1 p],
                            nextPayoutId := w1.nextPayoutId + 1 }
                  w1.nextPayoutId
                  (fun _ => fundsLockedPayout (mkPayout w1 p) lockEntry.id))
                w1.nextPayoutId
                (fun _ => sentPayout
                  (fundsLockedPayout (mkPayout w1 p) lockEntry.id) ppid)) :=
            transitionToSentToProvider_ok _ _ _ _ hFP4 rfl rfl
          have hFP5 : findPayout
              (updatePayout
                (updatePayout
                  { w1 with ledger := ledger2,
                            payouts := w1.payouts ++ [mkPayout w1 p],
                            nextPayoutId := w1.nextPayoutId + 1 }
                  w1.nextPayoutId
                  (fun _ => fundsLockedPayout (mkPayout w1 p) lockEntry.id))
                w1.nextPayoutId
                (fun _ => sentPayout
                  (fundsLockedPayout (mkPayout w1 p) lockEntry.id) ppid))
              w1.nextPayoutId =
              some (sentPayout
                (fundsLockedPayout (mkPayout w1 p) lockEntry.id) ppid) := by
            have h := findPayout_updatePayout
              (updatePayout
                { w1 with ledger := ledger2,
                          payouts := w1.payouts ++ [mkPayout w1 p],
                          nextPayoutId := w1.nextPayoutId + 1 }
                w1.nextPayoutId
                (fun _ => fundsLockedPayout (mkPayout w1 p) lockEntry.id))
              w1.nextPayoutId
              (fun _ => sentPayout
                (fundsLockedPayout (mkPayout w1 p) lockEntry.id) ppid)
              (fun x hx => by simp [sentPayout, fundsLockedPayout, mkPayout])
            rw [hFP4] at h
            exact h
          have hcompl := completeIdempotency_ok
            (ρ := PayoutResult) w1.idem p.merchantId p.idempotencyKey 201
            (payoutToResult (sentPayout
              (fundsLockedPayout (mkPayout w1 p) lockEntry.id) ppid))
            (by rw [hidem]; rfl)
          have hTry2 : (createPayoutTry w1 p prov).result =
              .ok (payoutToResult (sentPayout
                (fundsLockedPayout (mkPayout w1 p) lockEntry.id) ppid)) := by
            rw [hTry]
            unfold createPayoutSend
            rw [hP]
            dsimp only
            rw [hsts]
            dsimp only
            unfold createPayoutFinish
            rw [hFP5]
            dsimp only
            rw [show completeIdempotency
                (updatePayout
                  (updatePayout
                    { w1 with ledger := ledger2,
                              payouts := w1.payouts ++ [mkPayout w1 p],
                              nextPayoutId := w1.nextPayoutId + 1 }
                    w1.nextPayoutId
                    (fun _ => fundsLockedPayout (mkPayout w1 p) lockEntry.id))
                  w1.nextPayoutId
                  (fun _ => sentPayout
                    (fundsLockedPayout (mkPayout w1 p) lockEntry.id) ppid)).idem
                p.merchantId p.idempotencyKey 201
                (payoutToResult (sentPayout
                  (fundsLockedPayout (mkPayout w1 p) lockEntry.id) ppid)) =
              completeIdempotency w1.idem p.merchantId p.idempotencyKey 201
                (payoutToResult (sentPayout
                  (fundsLockedPayout (mkPayout w1 p) lockEntry.id) ppid))
              from rfl, hcompl]
          rw [hTry2] at hres
          simp at hres


/-- Peeling the idempotency check off `createPayout`: once the run reaches
the `storeIdempotency` step, a failing run that created a payout record is
fully compensated. -/
theorem createPayout_store_path (w : World) (p : CreatePayoutParams)
    (prov : Except AppErr String) (e : AppErr) (pid : Nat)
    (hWF : WFWorld w) (hkey : p.idempotencyKey ≠ "")
    (hCP : createPayout w p prov =
      match storeIdempotency w.idem p.merchantId p.idempotencyKey "POST"
          "/api/v1/payouts" (payoutRequestBody p) with
      | .error e2 => ⟨.error e2, w, []⟩
      | .ok idem1 =>
        match (createPayoutTry { w with idem := idem1 } p prov).result with
        | .ok _ => createPayoutTry { w with idem := idem1 } p prov
        | .error e2 =>
          catchPayoutFailure
            (createPayoutTry { w with idem := idem1 } p prov).world p e2
            (createPayoutTry { w with idem := idem1 } p prov).events)
    (hres : (createPayout w p prov).result = .error e)
    (hcreated : Event.payoutCreated pid ∈ (createPayout w p prov).events) :
    (∃ po, findPayout (createPayout w p prov).world pid = some po ∧
      po.status = .FAILED ∧
      ∃ t, po.stateHistory.getLast? = some t ∧ t.toState = .FAILED ∧
        t.reason = some (errMessage e)) ∧
    (∀ lid, Event.fundsLocked lid ∈ (createPayout w p prov).events →
      ∃ le, findEntryById (createPayout w p prov).world.ledger lid = some le ∧
        le.entryType = .LOCK ∧ le.status = .CANCELLED) ∧
    (∃ r, findIdemRecord (createPayout w p prov).world.idem
        p.merchantId p.idempotencyKey = some r ∧ r.status = .FAILED) := by
  cases hS : storeIdempotency w.idem p.merchantId p.idempotencyKey "POST"
      "/api/v1/payouts" (payoutRequestBody p) with
  | error eS =>
    rw [hS] at hCP
    dsimp only at hCP
    rw [hCP] at hcreated
    simp at hcreated
  | ok idem1 =>
    rw [hS] at hCP
    dsimp only at hCP
    obtain ⟨hnone, hidm1⟩ := storeIdempotency_ok _ _ _ _ _ _ _ hS
    have hidem : findIdemRecord idem1 p.merchantId p.idempotencyKey =
        some { merchantId := p.merchantId, key := p.idempotencyKey,
               requestHash := hashRequestBody (payoutRequestBody p),
               requestMethod := "POST", requestPath := "/api/v1/payouts",
               status := .PENDING } := by
      rw [hidm1]
      unfold findIdemRecord at hnone ⊢
      rw [find?_append_none _ _ _ hnone]
      rw [List.find?_cons_of_pos _ (by simp)]
    cases hT : (createPayoutTry { w with idem := idem1 } p prov).result with
    | ok r =>
      rw [hT] at hCP
      dsimp only at hCP
      rw [hCP, hT] at hres
      simp at hres
    | error e2 =>
      rw [hT] at hCP
      dsimp only at hCP
      rw [hCP] at hres hcreated ⊢
      rw [catchPayoutFailure_events] at hcreated ⊢
      obtain ⟨hr1, hr2, hr3, hr4⟩ := tryCatch_compensates
        { w with idem := idem1 } p prov e2 pid _ hWF.1 hWF.2.1 hWF.2.2
        hkey hidem hT hcreated
      have he : e = e2 := by
        rw [hr1] at hres
        exact (Except.error.inj hres).symm
      subst he
      exact ⟨hr2, hr3, hr4⟩

/-- C4.  Whenever `createPayout` fails after its payout record was created
(witnessed by the `payoutCreated` event in its trace), the catch block
leaves that payout FAILED with the failure reason recorded in its last
transition, every ledger lock acquired during the run CANCELLED (released),
and the idempotency record FAILED, while the original error is the reported
result: locked funds are never abandoned by a failed payout. -/
theorem createPayoutFailureCompensates (w : World) (p : CreatePayoutParams)
    (prov : Except AppErr String) (e : AppErr) (pid : Nat)
    (hWF : WFWorld w) (hkey : p.idempotencyKey ≠ "")
    (hres : (createPayout w p prov).result = .error e)
    (hcreated : Event.payoutCreated pid ∈ (createPayout w p prov).events) :
    (∃ po, findPayout (createPayout w p prov).world pid = some po ∧
      po.status = .FAILED ∧
      ∃ t, po.stateHistory.getLast? = some t ∧ t.toState = .FAILED ∧
        t.reason = some (errMessage e)) ∧
    (∀ lid, Event.fundsLocked lid ∈ (createPayout w p prov).events →
      ∃ le, findEntryById (createPayout w p prov).world.ledger lid = some le ∧
        le.entryType = .LOCK ∧ le.status = .CANCELLED) ∧
    (∃ r, findIdemRecord (createPayout w p prov).world.idem
        p.merchantId p.idempotencyKey = some r ∧ r.status = .FAILED) := by
  cases hC : checkIdempotency w.idem p.merchantId p.idempotencyKey "POST"
      "/api/v1/payouts" (payoutRequestBody p) with
  | error eC =>
    have hCP : createPayout w p prov = ⟨.error eC, w, []⟩ := by
      unfold createPayout
      rw [hC]
    rw [hCP] at hcreated
    simp at hcreated
  | ok chk =>
    cases hd : chk.isDuplicate with
    | true =>
      cases hr : chk.response with
      | some resp =>
        have hCP : createPayout w p prov =
            ⟨.ok (resp.body.getD emptyPayoutResult), w, []⟩ := by
          unfold createPayout
          rw [hC]
          dsimp only
          rw [hd, hr]
        rw [hCP] at hcreated
        simp at hcreated
      | none =>
        refine createPayout_store_path w p prov e pid hWF hkey ?_ hres hcreated
        unfold createPayout
        rw [hC]
        dsimp only
        rw [hd, hr]
    | false =>
      refine createPayout_store_path w p prov e pid hWF hkey ?_ hres hcreated
      unfold createPayout
      rw [hC]
      dsimp only
      rw [hd]

/-- A world with one active wallet and 500 settled USDC, no idempotency
records and no payouts. -/
def wC4 : World :=
  { ledger := { entries := [{ id := 0, walletId := "WAL", currency := "USDC",
                              entryType := .CREDIT, amount := 500,
                              status := .SETTLED,
                              idempotencyKey := some "seed" }],
                nextId := 1 },
    idem := [], payouts := [], nextPayoutId := 0,
    wallets := [{ id := "WAL", merchantId := "M", active := true }] }

/-- A payout request for 100 USDC within the available balance. -/
def pC4 : CreatePayoutParams :=
  { merchantId := "M", idempotencyKey := "PK4", walletId := "WAL",
    amount := 100, currency := "USDC", recipientAccount := "111",
    recipientName := "Alice" }

/-- A provider stub that fails the off-ramp call. -/
def provC4 : Except AppErr String := .error (.provider "provider down")

/-- Witness for C4 at concrete inputs: the run locks funds, the provider
call fails, and the catch block compensates in full. -/
theorem createPayoutFailureCompensatesWitness :
    WFWorld wC4 ∧ pC4.idempotencyKey ≠ "" ∧
    ((∃ po, findPayout (createPayout wC4 pC4 provC4).world 0 = some po ∧
      po.status = .FAILED ∧
      ∃ t, po.stateHistory.getLast? = some t ∧ t.toState = .FAILED ∧
        t.reason = some (errMessage (.provider "Failed to create payout"))) ∧
    (∀ lid, Event.fundsLocked lid ∈ (createPayout wC4 pC4 provC4).events →
      ∃ le, findEntryById (createPayout wC4 pC4 provC4).world.ledger lid =
          some le ∧ le.entryType = .LOCK ∧ le.status = .CANCELLED) ∧
    (∃ r, findIdemRecord (createPayout wC4 pC4 provC4).world.idem
        pC4.merchantId pC4.idempotencyKey = some r ∧ r.status = .FAILED)) :=
  ⟨by decide, by decide,
   createPayoutFailureCompensates wC4 pC4 provC4
     (.provider "Failed to create payout") 0
     (by decide) (by decide)
     (by with_unfolding_all decide) (by with_unfolding_all decide)⟩
